import Mathlib

/-!
Shallow embedding of the fluent HTTP client core of the Modular repository:
retry configs and the retry coordinator (`src/fluent/RetryCoordinator.cpp`,
`include/fluent/IRetryConfig.h`), the filter pipeline and the request
execution loop (`src/fluent/Request.cpp`), URL building (`src/fluent/Utils.h`),
the response JSON accessor (`src/fluent/Response.cpp`), and the rate limiter
(`src/core/RateLimiter.cpp`).

Conventions: C++ `std::string` is modelled as Lean `String` restricted to
byte-sized characters; `std::chrono::milliseconds` values are `Int`
millisecond counts; `std::chrono::system_clock::time_point` values are `Int`
nanosecond counts since the epoch (the libstdc++ representation);
`std::map<std::string, std::string>` is modelled as an association list in
the map's iteration (ascending key) order; thrown C++ exceptions become
`Except` error values.
-/

namespace Modular

/-! ## Retry configs (`include/fluent/IRetryConfig.h`) -/

/-- Embedding of the `IRetryConfig` virtual interface: `maxRetries`,
`shouldRetry(statusCode, isTimeout)` and `getDelay(attempt, statusCode)`
(delay in milliseconds). `attempt` is the loop counter of the call sites,
which is always ≥ 1. -/
structure RetryConfig where
  maxRetries : Int
  shouldRetry : Int → Bool → Bool
  getDelay : Nat → Int → Int

/-- `ServerErrorRetryConfig`: retries on 5xx or timeout with exponential
backoff `initialDelay * 2^(attempt-1)` capped at `maxDelay`. -/
def ServerErrorRetryConfig (maxRetries : Int := 3) (initialDelay : Int := 1000)
    (maxDelay : Int := 16000) : RetryConfig where
  maxRetries := maxRetries
  shouldRetry := fun statusCode isTimeout =>
    isTimeout || (decide (500 ≤ statusCode) && decide (statusCode < 600))
  getDelay := fun attempt _ => min (initialDelay * 2 ^ (attempt - 1)) maxDelay

/-- `RateLimitRetryConfig`: retries exactly on HTTP 429 with a fixed
60-second (60000 ms) delay. -/
def RateLimitRetryConfig (maxRetries : Int := 1) : RetryConfig where
  maxRetries := maxRetries
  shouldRetry := fun statusCode _ => decide (statusCode = 429)
  getDelay := fun _ _ => 60000

/-- `TimeoutRetryConfig`: retries exactly on network timeouts with a fixed
delay. -/
def TimeoutRetryConfig (maxRetries : Int := 2) (delay : Int := 1000) : RetryConfig where
  maxRetries := maxRetries
  shouldRetry := fun _ isTimeout => isTimeout
  getDelay := fun _ _ => delay

/-! ## Retry coordinator (`src/fluent/RetryCoordinator.cpp`) -/

namespace RetryCoordinator

/-- `RetryCoordinator::shouldRetry`: true if ANY config says to retry. -/
def shouldRetry (configs : List RetryConfig) (statusCode : Int) (isTimeout : Bool) : Bool :=
  configs.any fun c => c.shouldRetry statusCode isTimeout

/-- `RetryCoordinator::getDelay`: the maximum delay over the configs for
which `shouldRetry(statusCode, false) || shouldRetry(0, true)` holds,
starting from a zero-milliseconds accumulator. -/
def getDelay (configs : List RetryConfig) (attempt : Nat) (statusCode : Int) : Int :=
  configs.foldl
    (fun maxDelay c =>
      if c.shouldRetry statusCode false || c.shouldRetry 0 true then
        max maxDelay (c.getDelay attempt statusCode)
      else maxDelay)
    0

/-- `RetryCoordinator::getMaxRetries`: the maximum `maxRetries` over all
configs, starting from 0. -/
def getMaxRetries (configs : List RetryConfig) : Int :=
  configs.foldl (fun m c => max m c.maxRetries) 0

/-- Modelled from the spec's words for claim C1 (refinement comparison
only, not translated from the source): the maximum of `getDelay` over
exactly those configs whose `shouldRetry` predicate matched the actual
failure, that is the given status code and timeout flag; non-matching
configs contribute no delay. -/
def getDelayMatchedOnly (configs : List RetryConfig) (attempt : Nat) (statusCode : Int)
    (isTimeout : Bool) : Int :=
  configs.foldl
    (fun maxDelay c =>
      if c.shouldRetry statusCode isTimeout then
        max maxDelay (c.getDelay attempt statusCode)
      else maxDelay)
    0

end RetryCoordinator

/-! ## Filter pipeline (`src/fluent/Request.cpp`, `applyRequestFilters`
and `applyResponseFilters`) -/

/-- Embedding of an `IHttpFilter` for ordering purposes: its `priority`,
its dynamic type (`kind`, standing for `std::type_index(typeid(*filter))`)
and an identity tag (`uid`) distinguishing distinct filter objects. The
`onRequest`/`onResponse` hooks themselves are irrelevant to the invocation
order, which is what the claims are about. -/
structure Filter where
  priority : Int
  kind : Nat
  uid : Nat
deriving DecidableEq

/-- The effective filter set of one request: client filters whose dynamic
type is not in `removedFilterTypes`, followed by the request-local
`additionalFilters` (both `applyRequestFilters` and `applyResponseFilters`
rebuild this list the same way). -/
def effectiveFilters (clientFilters : List Filter) (removedFilterTypes : List Nat)
    (additionalFilters : List Filter) : List Filter :=
  clientFilters.filter (fun f => !(removedFilterTypes.contains f.kind)) ++ additionalFilters

/-- The request-phase invocation order: the effective filters sorted by
`std::sort` with comparator `a->priority() < b->priority()` (lowest first).
`std::sort` is unstable, leaving the relative order of equal priorities
unspecified; the model realizes one valid outcome via a stable insertion
sort with the non-strict relation. -/
def applyRequestFiltersOrder (clientFilters : List Filter) (removedFilterTypes : List Nat)
    (additionalFilters : List Filter) : List Filter :=
  List.insertionSort (fun a b => a.priority ≤ b.priority)
    (effectiveFilters clientFilters removedFilterTypes additionalFilters)

/-- The response-phase invocation order: the effective filters rebuilt and
sorted by `std::sort` with comparator `a->priority() > b->priority()`
(highest first), modelled like `applyRequestFiltersOrder` by a stable
insertion sort with the non-strict reversed relation. -/
def applyResponseFiltersOrder (clientFilters : List Filter) (removedFilterTypes : List Nat)
    (additionalFilters : List Filter) : List Filter :=
  List.insertionSort (fun a b => b.priority ≤ a.priority)
    (effectiveFilters clientFilters removedFilterTypes additionalFilters)

/-! ## URL building (`Request::buildFullUrl` and `detail::urlEncode`) -/

/-- `std::isalnum` (C locale) or one of `-`, `_`, `.`, `~`: the characters
`detail::urlEncode` keeps intact. -/
def isUnreservedChar (c : Char) : Bool :=
  c.isAlphanum || c = '-' || c = '_' || c = '.' || c = '~'

/-- Uppercase hexadecimal digit for a value below 16. -/
def hexUpperDigit (n : Nat) : Char :=
  if n < 10 then Char.ofNat (48 + n) else Char.ofNat (65 + (n - 10))

/-- Percent-encoding of one byte-sized character: `%` followed by the
two-digit uppercase hexadecimal value (`setw(2)` with fill `'0'`). -/
def percentEncodeChar (c : Char) : List Char :=
  ['%', hexUpperDigit (c.toNat / 16 % 16), hexUpperDigit (c.toNat % 16)]

/-- `detail::urlEncode` (RFC 3986): unreserved characters pass through,
every other character is percent-encoded. -/
def urlEncode (s : String) : String :=
  ⟨s.data.foldr (fun c acc => (if isUnreservedChar c then [c] else percentEncodeChar c) ++ acc) []⟩

/-- The query-parameter portion built by the loop in `buildFullUrl`:
percent-encoded `key=value` pairs joined by `&`. -/
def queryString (params : List (String × String)) : String :=
  String.intercalate ("&") (params.map fun kv => urlEncode kv.1 ++ "=" ++ urlEncode kv.2)

/-- `Request::buildFullUrl`: base URL, then the resource (with a single `/`
inserted when the base is nonempty, does not end in `/`, and the resource
does not start with `/`), then `?` and the query string when parameters are
present. -/
def buildFullUrl (baseUrl resource : String) (queryParams : List (String × String)) : String :=
  let withResource :=
    if resource ≠ "" then
      (if baseUrl ≠ "" ∧ baseUrl.data.getLast? ≠ some '/' ∧ resource.data.head? ≠ some '/' then
        baseUrl ++ "/"
      else baseUrl) ++ resource
    else baseUrl
  if queryParams ≠ [] then withResource ++ "?" ++ queryString queryParams else withResource

/-! ## Response (`src/fluent/Response.cpp`) -/

/-- Embedding of the immutable `Response` fields set by the constructor used
in `executeInternal` (`elapsed` in milliseconds). -/
structure Response where
  statusCode : Int
  statusReason : String
  headers : List (String × String)
  body : String
  effectiveUrl : String
  elapsed : Int
deriving DecidableEq

/-- Embedding of `ParseException`: the message and the `content` string the
constructor stores (`Response::asJson` passes the body it failed to parse). -/
structure ParseExceptionData where
  message : String
  content : String
deriving DecidableEq

/-- `Response::asJson` (first call, empty cache): parse the body string with
the JSON library (modelled by the `parse` argument, since `nlohmann::json`
is an external library); on a parse error with message `e.what()`, throw
`ParseException("Failed to parse JSON: " + e.what(), body)` where the
content argument is `std::string(body_.begin(), body_.end())`, the whole
body. -/
def Response.asJson {J : Type} (parse : String → Except String J) (body : String) :
    Except ParseExceptionData J :=
  match parse body with
  | Except.ok j => Except.ok j
  | Except.error msg =>
      Except.error ⟨"Failed to parse JSON: " ++ msg, body⟩

/-! ## Request execution (`Request::executeInternal`) -/

/-- Reasons of `NetworkException`. -/
inductive NetworkReason where
  | connectionFailed
  | dnsResolutionFailed
  | timeout
  | sslError
  | unknown
deriving DecidableEq

/-- Embedding of `NetworkException`. -/
structure NetworkExceptionData where
  message : String
  reason : NetworkReason
deriving DecidableEq

/-- `NetworkException::isTimeout` / the `reason() == Reason::Timeout` test
in `executeInternal`. -/
def NetworkExceptionData.isTimeout (e : NetworkExceptionData) : Bool :=
  e.reason = NetworkReason.timeout

/-- Errors that can escape the attempt loop of `executeInternal`: a rethrown
`NetworkException`, a `std::runtime_error` (cancellation and the
unreachable fall-through), or an error raised by a response filter hook. -/
inductive ExecError where
  | network : NetworkExceptionData → ExecError
  | runtimeError : String → ExecError
  | filterError : String → ExecError
deriving DecidableEq

/-- One transport exchange as returned by
`client_->httpClientBridge().execute(config)` (or the `NetworkException` it
throws). -/
structure TransportResult where
  statusCode : Int
  statusReason : String
  headers : List (String × String)
  body : String
  effectiveUrl : String
  elapsed : Int
  wasTimeout : Bool
deriving DecidableEq

/-- The `Response` constructed from a transport result in
`executeInternal`. -/
def mkResponse (r : TransportResult) : Response :=
  ⟨r.statusCode, r.statusReason, r.headers, r.body, r.effectiveUrl, r.elapsed⟩

deriving instance DecidableEq for Except

/-- Observable trace of one `executeInternal` run: how many times the
transport was invoked, the delays slept before retries (in order, in
milliseconds), and the outcome. -/
structure ExecTrace where
  calls : Nat
  delays : List Int
  result : Except ExecError Response
deriving DecidableEq

/-- The attempt loop of `executeInternal` (lines 375-433): at each attempt
check cancellation, call the transport, build the `Response`, run the
response-filter phase, and retry (after sleeping `getDelay(attempt,
statusCode)`) while the retry config matches and attempts remain. The
C++ `for (attempt = 1; attempt <= maxAttempts; ++attempt)` loop is driven
by `fuel`, the number of loop iterations still allowed (`maxAttempts -
attempt + 1`); exhausting it is the fall-through `throw` of line 436.
`cancelled` gives the state of the stop token at each attempt boundary and
`responsePhase` is the composite effect of `applyResponseFilters`. -/
def executeLoop (retryConfig : Option RetryConfig) (disableRetry : Bool)
    (cancelled : Nat → Bool) (transport : Nat → Except NetworkExceptionData TransportResult)
    (responsePhase : Response → Except ExecError Unit) (maxAttempts : Int) :
    Nat → Nat → ExecTrace
  | _, 0 => ⟨0, [], Except.error (ExecError.runtimeError ("Request failed after retries"))⟩
  | attempt, fuel + 1 =>
    if cancelled attempt then
      ⟨0, [], Except.error (ExecError.runtimeError ("Request cancelled"))⟩
    else
      match transport attempt with
      | Except.ok result =>
        let response := mkResponse result
        match responsePhase response with
        | Except.error e => ⟨1, [], Except.error e⟩
        | Except.ok () =>
          match retryConfig with
          | some rc =>
            if !disableRetry && rc.shouldRetry result.statusCode result.wasTimeout
                && decide ((attempt : Int) < maxAttempts) then
              let delay := rc.getDelay attempt result.statusCode
              let rest := executeLoop (some rc) disableRetry cancelled transport
                responsePhase maxAttempts (attempt + 1) fuel
              ⟨1 + rest.calls, delay :: rest.delays, rest.result⟩
            else ⟨1, [], Except.ok response⟩
          | none => ⟨1, [], Except.ok response⟩
      | Except.error ex =>
        match retryConfig with
        | some rc =>
          if !disableRetry && rc.shouldRetry 0 ex.isTimeout
              && decide ((attempt : Int) < maxAttempts) then
            let delay := rc.getDelay attempt 0
            let rest := executeLoop (some rc) disableRetry cancelled transport
              responsePhase maxAttempts (attempt + 1) fuel
            ⟨1 + rest.calls, delay :: rest.delays, rest.result⟩
          else ⟨1, [], Except.error (ExecError.network ex)⟩
        | none => ⟨1, [], Except.error (ExecError.network ex)⟩

/-- `Request::executeInternal` after the request-filter phase: compute
`maxAttempts = disableRetry_ ? 1 : (retryConfig_ ? maxRetries()+1 : 1)` and
run the attempt loop from attempt 1. -/
def executeInternal (retryConfig : Option RetryConfig) (disableRetry : Bool)
    (cancelled : Nat → Bool) (transport : Nat → Except NetworkExceptionData TransportResult)
    (responsePhase : Response → Except ExecError Unit) : ExecTrace :=
  let maxAttempts : Int :=
    if disableRetry then 1 else
      match retryConfig with
      | some rc => rc.maxRetries + 1
      | none => 1
  executeLoop retryConfig disableRetry cancelled transport responsePhase maxAttempts 1
    maxAttempts.toNat

/-- The status code the retry loop feeds to `getDelay` at a given attempt:
the received status on the normal path, 0 when the transport threw a
`NetworkException`. -/
def statusAt (transport : Nat → Except NetworkExceptionData TransportResult)
    (attempt : Nat) : Int :=
  match transport attempt with
  | Except.ok r => r.statusCode
  | Except.error _ => 0

/-! ## Rate limiter (`src/core/RateLimiter.cpp`) -/

/-- Nanoseconds per second: `std::chrono::system_clock` on libstdc++ counts
nanoseconds. -/
def nsPerSec : Int := 1000000000

/-- The six state fields of `RateLimiter` (reset time points in nanoseconds
since the epoch). -/
structure RateLimiterState where
  daily_limit : Int
  daily_remaining : Int
  hourly_limit : Int
  hourly_remaining : Int
  daily_reset : Int
  hourly_reset : Int
deriving DecidableEq

namespace RateLimiter

/-- The `RateLimiter` constructor: default limits from the member
initializers, reset times `now + 24h` and `now + 1h`. -/
def init (now : Int) : RateLimiterState :=
  ⟨20000, 20000, 500, 500, now + 86400 * nsPerSec, now + 3600 * nsPerSec⟩

/-- ASCII `std::tolower` in the C locale. -/
def asciiToLower (c : Char) : Char :=
  if 65 ≤ c.toNat ∧ c.toNat ≤ 90 then Char.ofNat (c.toNat + 32) else c

/-- Lowercase an entire string, as the loops in `getHeaderValue` do. -/
def lowerStr (s : String) : String :=
  ⟨s.data.map asciiToLower⟩

/-- `RateLimiter::getHeaderValue`: the value of the first header (in map
iteration order) whose lowercased key equals the lowercased wanted key, or
`""` when none matches. -/
def getHeaderValue (headers : List (String × String)) (key : String) : String :=
  match headers.find? (fun kv => lowerStr kv.1 = lowerStr key) with
  | some kv => kv.2
  | none => ""

/-- `std::stoi`/`std::stoll`: skip leading whitespace, accept an optional
sign, then require at least one decimal digit and convert the longest
digit prefix; with no digit the call throws (`std::invalid_argument`),
modelled as `Except.error`. Overflow (`std::out_of_range`) is not modelled:
the conversion is kept exact on `Int`. -/
def stoi (s : String) : Except Unit Int :=
  let cs := s.data.dropWhile (fun c =>
    c = ' ' ∨ c = '\t' ∨ c = '\n' ∨ c = '\r' ∨ c = '\x0b' ∨ c = '\x0c')
  let core : List Char → Except Unit Int := fun ds =>
    let digits := ds.takeWhile Char.isDigit
    if digits = [] then Except.error ()
    else Except.ok (Int.ofNat (digits.foldl (fun n c => 10 * n + (c.toNat - 48)) 0))
  match cs with
  | '-' :: rest => (core rest).map (fun n => -n)
  | '+' :: rest => core rest
  | rest => core rest

/-- `RateLimiter::parseTimestamp`: empty string means `now`; otherwise
`stoll` the Unix seconds and build the time point (any conversion failure
is caught and yields `now`). -/
def parseTimestamp (now : Int) (ts : String) : Int :=
  if ts = "" then now
  else
    match stoi ts with
    | Except.ok t => t * nsPerSec
    | Except.error _ => now

/-- One integer-field step of `updateFromHeaders`: when the header value is
nonempty, `std::stoi` it and assign the field; a conversion failure
propagates (second component `some`), leaving the state as accumulated so
far. -/
def updateStep (s : RateLimiterState) (v : String)
    (set : RateLimiterState → Int → RateLimiterState) :
    RateLimiterState × Option String :=
  if v = "" then (s, none)
  else
    match stoi v with
    | Except.ok n => (set s n, none)
    | Except.error _ => (s, some ("std::invalid_argument: stoi"))

/-- A limit/remaining header value on which `std::stoi` raises
`std::invalid_argument`: present (nonempty) but not a parseable integer. -/
def headerIntBad (v : String) : Prop :=
  v ≠ "" ∧ stoi v = Except.error ()

/-- A limit/remaining header value on which the update step does not throw:
absent/empty, or a parseable integer. -/
def headerIntOk (v : String) : Prop :=
  v = "" ∨ ∃ n, stoi v = Except.ok n

/-- `RateLimiter::updateFromHeaders`: the six fields in source order
(daily limit, daily remaining, daily reset, hourly limit, hourly
remaining, hourly reset), each updated only when its header is present
(case-insensitively) with a nonempty value. A `std::stoi` failure escapes
the function at that point; the pair's second component records the escaped
exception, the first the state the limiter is left in. -/
def updateFromHeaders (now : Int) (s : RateLimiterState)
    (headers : List (String × String)) : RateLimiterState × Option String :=
  match updateStep s (getHeaderValue headers ("x-rl-daily-limit"))
      (fun t n => { t with daily_limit := n }) with
  | (s1, some e) => (s1, some e)
  | (s1, none) =>
    match updateStep s1 (getHeaderValue headers ("x-rl-daily-remaining"))
        (fun t n => { t with daily_remaining := n }) with
    | (s2, some e) => (s2, some e)
    | (s2, none) =>
      match updateStep
          (if getHeaderValue headers ("x-rl-daily-reset") ≠ "" then
            { s2 with daily_reset := parseTimestamp now (getHeaderValue headers ("x-rl-daily-reset")) }
          else s2)
          (getHeaderValue headers ("x-rl-hourly-limit"))
          (fun t n => { t with hourly_limit := n }) with
      | (s4, some e) => (s4, some e)
      | (s4, none) =>
        match updateStep s4 (getHeaderValue headers ("x-rl-hourly-remaining"))
            (fun t n => { t with hourly_remaining := n }) with
        | (s5, some e) => (s5, some e)
        | (s5, none) =>
          (if getHeaderValue headers ("x-rl-hourly-reset") ≠ "" then
            { s5 with
                hourly_reset := parseTimestamp now (getHeaderValue headers ("x-rl-hourly-reset")) }
          else s5, none)

/-- `RateLimiter::canMakeRequest`: both window remainders strictly
positive. -/
def canMakeRequest (s : RateLimiterState) : Bool :=
  decide (s.daily_remaining > 0) && decide (s.hourly_remaining > 0)

/-- `RateLimiter::waitIfNeeded` never mutates the six state fields; its
only observable effect is how long it sleeps (returned here in
nanoseconds): nothing when a request is allowed, else until the reset of
the exhausted window (daily first), and nothing when that reset has
already passed. -/
def waitIfNeeded (now : Int) (s : RateLimiterState) : Int :=
  if canMakeRequest s then 0
  else if s.daily_remaining ≤ 0 then
    if s.daily_reset - now ≤ 0 then 0 else s.daily_reset - now
  else if s.hourly_remaining ≤ 0 then
    if s.hourly_reset - now ≤ 0 then 0 else s.hourly_reset - now
  else 0

/-- The persisted state file: the six JSON fields, each possibly absent
when the file was produced elsewhere (reset fields in Unix epoch
seconds). -/
structure FileState where
  daily_limit : Option Int
  daily_remaining : Option Int
  hourly_limit : Option Int
  hourly_remaining : Option Int
  daily_reset : Option Int
  hourly_reset : Option Int
deriving DecidableEq

/-- `std::chrono::duration_cast<std::chrono::seconds>`: division by 10^9
truncating toward zero. -/
def durationCastSec (t : Int) : Int :=
  if 0 ≤ t then t / nsPerSec else -((-t) / nsPerSec)

/-- `RateLimiter::saveState` (successful write): all six fields are
serialized, the reset time points as truncated Unix epoch seconds. -/
def saveStateRecord (s : RateLimiterState) : FileState :=
  ⟨some s.daily_limit, some s.daily_remaining, some s.hourly_limit, some s.hourly_remaining,
    some (durationCastSec s.daily_reset), some (durationCastSec s.hourly_reset)⟩

/-- `RateLimiter::loadState`: a missing (or unreadable) file leaves the
state untouched; otherwise the four counters are read with
`json::value(key, default)` defaults and each reset is overwritten (epoch
seconds scaled back to a time point) only when its key is present. -/
def loadStateApply (s : RateLimiterState) (file : Option FileState) : RateLimiterState :=
  match file with
  | none => s
  | some f =>
    { daily_limit := f.daily_limit.getD 20000
      daily_remaining := f.daily_remaining.getD 20000
      hourly_limit := f.hourly_limit.getD 500
      hourly_remaining := f.hourly_remaining.getD 500
      daily_reset := match f.daily_reset with
        | some epoch => epoch * nsPerSec
        | none => s.daily_reset
      hourly_reset := match f.hourly_reset with
        | some epoch => epoch * nsPerSec
        | none => s.hourly_reset }

/-- States reachable through the limiter's lifecycle: construction,
header updates and state loads. `waitIfNeeded` does not change the state,
so it contributes no transition. -/
inductive Reachable : RateLimiterState → Prop where
  | init (now : Int) : Reachable (init now)
  | update {s : RateLimiterState} (now : Int) (headers : List (String × String)) :
      Reachable s → Reachable (updateFromHeaders now s headers).1
  | load {s : RateLimiterState} (file : Option FileState) :
      Reachable s → Reachable (loadStateApply s file)

end RateLimiter

/-! ## Concrete inputs used by the claim theorems -/

/-- A transport result carrying just a status code (the other fields are
immaterial to retry decisions). -/
def plainResult (code : Int) : TransportResult :=
  ⟨code, "", [], "", "", 0, false⟩

/-- The server of the 503/503/200 retry story: attempts 1 and 2 answer
503, every later attempt answers 200. -/
def server503503200 (attempt : Nat) : Except NetworkExceptionData TransportResult :=
  if attempt = 1 then Except.ok (plainResult 503)
  else if attempt = 2 then Except.ok (plainResult 503)
  else Except.ok (plainResult 200)

/-- A 1000-character response body that is not valid JSON. -/
def bigBody : String :=
  String.mk (List.replicate 1000 'x')

/-- The content carried by a raised `ParseException`, `""` when no
exception was raised. -/
def errorContent {J : Type} : Except ParseExceptionData J → String
  | Except.error e => e.content
  | Except.ok _ => ""

/-- Save-then-load round trip of the rate limiter: serialize `s` and load
the record into the limiter `fresh`. -/
def roundTrip (s fresh : RateLimiterState) : RateLimiterState :=
  RateLimiter.loadStateApply fresh (some (RateLimiter.saveStateRecord s))

end Modular

namespace Modular

/-! ## Helper lemmas -/

/-- A `foldl` that skips elements failing `p` equals the `foldl` over the
filtered list. -/
theorem foldl_if_eq_foldl_filter {α β : Type} (p : α → Bool) (g : β → α → β) :
    ∀ (l : List α) (init : β),
      l.foldl (fun acc a => if p a then g acc a else acc) init = (l.filter p).foldl g init := by
  intro l
  induction l with
  | nil => intro init; rfl
  | cons a l ih =>
    intro init
    by_cases h : p a
    · simp [List.filter_cons, h, ih]
    · simp [List.filter_cons, h, ih]

/-! ## Claim C1 -/

/-- Claim C1, counterexample. The claim states that
`RetryCoordinator::getDelay` maximizes over exactly those configs whose
`shouldRetry` predicate matched the actual failure, non-matching configs
contributing no delay. For a coordinator holding
`TimeoutRetryConfig(maxRetries=2, delay=120000ms)` and
`RateLimitRetryConfig(maxRetries=1)`, at the actual failure status 429
(not a timeout) the timeout config's predicate does not match, yet
`getDelay(1, 429)` returns its 120000 ms instead of the matched-only
maximum 60000 ms, because the source includes every config satisfying
`shouldRetry(statusCode, false) || shouldRetry(0, true)`. -/
theorem claim_C1_counterexample :
    RetryCoordinator.getDelay [TimeoutRetryConfig 2 120000, RateLimitRetryConfig 1] 1 429
        = 120000
      ∧ (TimeoutRetryConfig 2 120000).shouldRetry 429 false = false
      ∧ RetryCoordinator.getDelayMatchedOnly
          [TimeoutRetryConfig 2 120000, RateLimitRetryConfig 1] 1 429 false = 60000
      ∧ RetryCoordinator.getDelay [TimeoutRetryConfig 2 120000, RateLimitRetryConfig 1] 1 429
          ≠ RetryCoordinator.getDelayMatchedOnly
            [TimeoutRetryConfig 2 120000, RateLimitRetryConfig 1] 1 429 false := by
  exact ⟨by decide, by decide, by decide, by decide⟩

/-- Claim C1, amended. `RetryCoordinator::getDelay(attempt, statusCode)`
returns the maximum of the individual configs' `getDelay` values (with a
floor of 0 ms) over exactly those configs for which
`shouldRetry(statusCode, false) || shouldRetry(0, true)` holds — i.e.
configs matching the status code as a non-timeout, plus every
timeout-triggered config regardless of the actual failure kind; other
configs contribute no delay. In particular, for a coordinator with the
default 5xx-policy and 429-policy, status 429 uses the 429-policy's
delay, and status 503 uses the 5xx-policy's delay. -/
theorem claim_C1 :
    (∀ (configs : List RetryConfig) (attempt : Nat) (statusCode : Int),
        RetryCoordinator.getDelay configs attempt statusCode =
          (configs.filter fun c => c.shouldRetry statusCode false || c.shouldRetry 0 true).foldl
            (fun maxDelay c => max maxDelay (c.getDelay attempt statusCode)) 0)
      ∧ RetryCoordinator.getDelay [ServerErrorRetryConfig, RateLimitRetryConfig] 1 429
          = (RateLimitRetryConfig).getDelay 1 429
      ∧ RetryCoordinator.getDelay [ServerErrorRetryConfig, RateLimitRetryConfig] 1 503
          = (ServerErrorRetryConfig).getDelay 1 503 := by
  refine ⟨fun configs attempt statusCode => ?_, by decide, by decide⟩
  exact foldl_if_eq_foldl_filter _ _ configs 0

/-! ## Claim C4 -/

/-- Claim C4, counterexample. The claim asserts that every combination of
trailing slash on the base and leading slash on the resource yields
`"https://api.test/v1/items?page=2"`; but when the base ends with `/` AND
the resource begins with `/`, `buildFullUrl` concatenates both slashes
(it only ever inserts a separator, never removes one), producing
`"https://api.test//v1/items?page=2"`. -/
theorem claim_C4_counterexample :
    buildFullUrl ("https://api.test/") ("/v1/items") [(("page"), ("2"))]
        = "https://api.test//v1/items?page=2"
      ∧ buildFullUrl ("https://api.test/") ("/v1/items") [(("page"), ("2"))]
          ≠ "https://api.test/v1/items?page=2" := by
  exact ⟨by decide, by decide⟩

/-- Claim C4, amended. `buildFullUrl` forms base URL + resource inserting
exactly one `/` separator when neither the base ends with `/` nor the
resource begins with `/`, then appends `?` and percent-encoded `key=value`
query parameters joined by `&`. Base `"https://api.test"` with resource
`"v1/items"` and argument `page=2` yields
`"https://api.test/v1/items?page=2"` for the three slash combinations in
which at most one side supplies a slash; when both sides supply one, the
slashes are not deduplicated and the result contains `//`. -/
theorem claim_C4 :
    buildFullUrl ("https://api.test") ("v1/items") [(("page"), ("2"))]
        = "https://api.test/v1/items?page=2"
      ∧ buildFullUrl ("https://api.test/") ("v1/items") [(("page"), ("2"))]
          = "https://api.test/v1/items?page=2"
      ∧ buildFullUrl ("https://api.test") ("/v1/items") [(("page"), ("2"))]
          = "https://api.test/v1/items?page=2"
      ∧ buildFullUrl ("https://api.test/") ("/v1/items") [(("page"), ("2"))]
          = "https://api.test//v1/items?page=2" := by
  exact ⟨by decide, by decide, by decide, by decide⟩

/-! ## Claim C9 -/

set_option maxRecDepth 10000 in
/-- Claim C9, counterexample. The claim states that `Response::asJson`
raises a Parse error carrying a truncated snippet of the offending body;
in fact `ParseException` is constructed with
`std::string(body_.begin(), body_.end())` — the complete body. For a
1000-character invalid body the carried content is the whole 1000-character
body, not any shorter snippet. -/
theorem claim_C9_counterexample :
    errorContent (Response.asJson (J := Unit) (fun _ => Except.error ("syntax error")) bigBody)
        = bigBody
      ∧ bigBody.length = 1000
      ∧ ¬ (errorContent
            (Response.asJson (J := Unit) (fun _ => Except.error ("syntax error"))
              bigBody)).length < bigBody.length := by
  have hc :
      errorContent (Response.asJson (J := Unit) (fun _ => Except.error ("syntax error")) bigBody)
        = bigBody := rfl
  have hl : bigBody.length = 1000 := by
    simp [bigBody, String.length, List.length_replicate]
  refine ⟨hc, hl, ?_⟩
  rw [hc]
  exact Nat.lt_irrefl _

/-- Claim C9, amended. For every response body that is not valid JSON
(the JSON library's parse reports an error message `msg`),
`Response::asJson` raises a Parse error whose message is
`"Failed to parse JSON: " ++ msg` and whose carried content is the
complete offending body (no truncation is applied). -/
theorem claim_C9 :
    ∀ (J : Type) (parse : String → Except String J) (body msg : String),
      parse body = Except.error msg →
      Response.asJson parse body
        = Except.error ⟨"Failed to parse JSON: " ++ msg, body⟩ := by
  intro J parse body msg h
  simp [Response.asJson, h]

/-- Claim C9 witness: a concrete invalid body produces the Parse error with
the full body as content. -/
theorem claim_C9_witness :
    Response.asJson (J := Unit) (fun _ => Except.error ("unexpected token")) ("notjson")
      = Except.error ⟨"Failed to parse JSON: unexpected token", "notjson"⟩ :=
  claim_C9 Unit (fun _ => Except.error ("unexpected token")) ("notjson") ("unexpected token") rfl

/-! ## Claim C2 -/

/-- Claim C2, counterexample. The claim asserts the response-phase order is
exactly the reverse of the request-phase order for every execution; both
phases however sort independently with `std::sort`, whose order on equal
priorities is unspecified. For two distinct filters of equal priority 100,
the modelled sort (a stable realization of `std::sort`) runs the request
phase as `[f0, f1]` and the response phase as `[f0, f1]`, which is not the
reverse `[f1, f0]`. -/
theorem claim_C2_counterexample :
    applyResponseFiltersOrder [⟨100, 0, 0⟩, ⟨100, 0, 1⟩] [] []
      ≠ (applyRequestFiltersOrder [⟨100, 0, 0⟩, ⟨100, 0, 1⟩] [] []).reverse := by
  decide

/-- Claim C2, amended. For every execution, the `onRequest` hooks of the
effective filter set (retained client filters plus request-local filters)
run in ascending priority order and the `onResponse` hooks in descending
priority order; whenever the effective filters have pairwise distinct
priorities, the response order is exactly the reverse of the request
order. In particular priorities `[300,100,500]` give request order
`[100,300,500]` and response order `[500,300,100]`. (On equal priorities
the relative order of each phase is unspecified and need not reverse.) -/
theorem claim_C2 :
    (∀ (cf : List Filter) (rk : List Nat) (af : List Filter),
        List.Sorted (fun a b : Filter => a.priority ≤ b.priority)
          (applyRequestFiltersOrder cf rk af)
        ∧ List.Sorted (fun a b : Filter => b.priority ≤ a.priority)
            (applyResponseFiltersOrder cf rk af))
      ∧ (∀ (cf : List Filter) (rk : List Nat) (af : List Filter),
          (effectiveFilters cf rk af).Pairwise (fun a b => a.priority ≠ b.priority) →
          applyResponseFiltersOrder cf rk af = (applyRequestFiltersOrder cf rk af).reverse)
      ∧ applyRequestFiltersOrder [⟨300, 0, 0⟩, ⟨100, 1, 1⟩, ⟨500, 2, 2⟩] [] []
          = [⟨100, 1, 1⟩, ⟨300, 0, 0⟩, ⟨500, 2, 2⟩]
      ∧ applyResponseFiltersOrder [⟨300, 0, 0⟩, ⟨100, 1, 1⟩, ⟨500, 2, 2⟩] [] []
          = [⟨500, 2, 2⟩, ⟨300, 0, 0⟩, ⟨100, 1, 1⟩] := by
  haveI hTotLe : IsTotal Filter (fun a b => a.priority ≤ b.priority) :=
    ⟨fun a b => Int.le_total a.priority b.priority⟩
  haveI hTransLe : IsTrans Filter (fun a b => a.priority ≤ b.priority) :=
    ⟨fun _ _ _ h1 h2 => le_trans h1 h2⟩
  haveI hTotGe : IsTotal Filter (fun a b => b.priority ≤ a.priority) :=
    ⟨fun a b => Int.le_total b.priority a.priority⟩
  haveI hTransGe : IsTrans Filter (fun a b => b.priority ≤ a.priority) :=
    ⟨fun _ _ _ h1 h2 => le_trans h2 h1⟩
  refine ⟨?_, ?_, by decide, by decide⟩
  · intro cf rk af
    exact ⟨List.sorted_insertionSort _ _, List.sorted_insertionSort _ _⟩
  · intro cf rk af hdist
    haveI : IsAntisymm Filter (fun a b => b.priority < a.priority) :=
      ⟨fun a b h1 h2 => absurd h1 (lt_asymm h2)⟩
    set l := effectiveFilters cf rk af with hl
    have hperm : List.Perm (applyResponseFiltersOrder cf rk af)
        (applyRequestFiltersOrder cf rk af).reverse :=
      ((List.perm_insertionSort _ l).trans
        (List.perm_insertionSort (fun a b : Filter => a.priority ≤ b.priority) l).symm).trans
        (List.reverse_perm (applyRequestFiltersOrder cf rk af)).symm
    have hsortedAsc : List.Sorted (fun a b : Filter => a.priority ≤ b.priority)
        (applyRequestFiltersOrder cf rk af) := List.sorted_insertionSort _ _
    have hsortedDesc : List.Sorted (fun a b : Filter => b.priority ≤ a.priority)
        (applyResponseFiltersOrder cf rk af) := List.sorted_insertionSort _ _
    have hdistAsc : (applyRequestFiltersOrder cf rk af).Pairwise
        (fun a b => a.priority ≠ b.priority) :=
      ((List.perm_insertionSort _ l).pairwise_iff (fun {a b} h => Ne.symm h)).mpr hdist
    have hdistDesc : (applyResponseFiltersOrder cf rk af).Pairwise
        (fun a b => a.priority ≠ b.priority) :=
      ((List.perm_insertionSort _ l).pairwise_iff (fun {a b} h => Ne.symm h)).mpr hdist
    have hstrictAsc : (applyRequestFiltersOrder cf rk af).Pairwise
        (fun a b : Filter => a.priority < b.priority) :=
      (hsortedAsc.and hdistAsc).imp (fun h => lt_of_le_of_ne h.1 h.2)
    have hstrictDesc : (applyResponseFiltersOrder cf rk af).Pairwise
        (fun a b : Filter => b.priority < a.priority) :=
      (hsortedDesc.and hdistDesc).imp (fun h => lt_of_le_of_ne h.1 (Ne.symm h.2))
    have hstrictRev : (applyRequestFiltersOrder cf rk af).reverse.Pairwise
        (fun a b : Filter => b.priority < a.priority) :=
      List.pairwise_reverse.mpr hstrictAsc
    exact List.eq_of_perm_of_sorted hperm hstrictDesc hstrictRev

end Modular


namespace Modular

/-- The attempt loop performs at most `fuel` transport calls: the loop
condition `attempt <= maxAttempts` bounds the attempt count. -/
theorem executeLoop_calls_le_fuel (rcO : Option RetryConfig) (dr : Bool) (c : Nat → Bool)
    (t : Nat → Except NetworkExceptionData TransportResult)
    (p : Response → Except ExecError Unit) (mA : Int) :
    ∀ (f a : Nat), (executeLoop rcO dr c t p mA a f).calls ≤ f := by
  intro f
  induction f with
  | zero => intro a; simp [executeLoop]
  | succ f ih =>
    intro a
    unfold executeLoop
    by_cases hc : c a = true
    · simp [hc]
    · simp only [hc, if_false, Bool.false_eq_true]
      cases ht : t a with
      | ok r =>
        cases hp : p (mkResponse r) with
        | error e => cases rcO <;> simp [hp]
        | ok u =>
          cases u
          cases rcO with
          | none => simp [hp]
          | some rc =>
            by_cases hg :
                (!dr && rc.shouldRetry r.statusCode r.wasTimeout && decide ((a : Int) < mA)) = true
            · have hrest := ih (a + 1)
              simp only [hp, hg, if_true]
              simp
              omega
            · simp [hp, hg]
      | error ex =>
        cases rcO with
        | none => simp
        | some rc =>
          by_cases hg : (!dr && rc.shouldRetry 0 ex.isTimeout && decide ((a : Int) < mA)) = true
          · have hrest := ih (a + 1)
            simp only [hg, if_true]
            simp
            omega
          · simp [hg]

end Modular

namespace Modular

/-- When the stop token is not set at the attempt boundary, the loop body
runs and the transport is called at least once. -/
theorem executeLoop_calls_pos (rcO : Option RetryConfig) (dr : Bool) (c : Nat → Bool)
    (t : Nat → Except NetworkExceptionData TransportResult)
    (p : Response → Except ExecError Unit) (mA : Int) (f a : Nat) (hc : c a = false) :
    1 ≤ (executeLoop rcO dr c t p mA a (f + 1)).calls := by
  unfold executeLoop
  simp only [hc, if_false, Bool.false_eq_true]
  cases ht : t a with
  | ok r =>
    cases hp : p (mkResponse r) with
    | error e => cases rcO <;> simp [hp]
    | ok u =>
      cases u
      cases rcO with
      | none => simp [hp]
      | some rc =>
        by_cases hg :
            (!dr && rc.shouldRetry r.statusCode r.wasTimeout && decide ((a : Int) < mA)) = true
        · simp [hp, hg]
        · simp [hp, hg]
  | error ex =>
    cases rcO with
    | none => simp
    | some rc =>
      by_cases hg : (!dr && rc.shouldRetry 0 ex.isTimeout && decide ((a : Int) < mA)) = true
      · simp [hg]
      · simp [hg]

/-- With no retry config the loop performs exactly one attempt and never
sleeps. -/
theorem executeLoop_single_none (dr : Bool) (c : Nat → Bool)
    (t : Nat → Except NetworkExceptionData TransportResult)
    (p : Response → Except ExecError Unit) (mA : Int) (f a : Nat) (hc : c a = false) :
    (executeLoop none dr c t p mA a (f + 1)).calls = 1
      ∧ (executeLoop none dr c t p mA a (f + 1)).delays = [] := by
  unfold executeLoop
  simp only [hc, if_false, Bool.false_eq_true]
  cases ht : t a with
  | ok r =>
    cases hp : p (mkResponse r) with
    | error e => simp [hp]
    | ok u => cases u; simp [hp]
  | error ex => simp

/-- With retries disabled (`withNoRetry`) the loop performs exactly one
attempt and never sleeps. -/
theorem executeLoop_single_disabled (rcO : Option RetryConfig) (c : Nat → Bool)
    (t : Nat → Except NetworkExceptionData TransportResult)
    (p : Response → Except ExecError Unit) (mA : Int) (f a : Nat) (hc : c a = false) :
    (executeLoop rcO true c t p mA a (f + 1)).calls = 1
      ∧ (executeLoop rcO true c t p mA a (f + 1)).delays = [] := by
  unfold executeLoop
  simp only [hc, if_false, Bool.false_eq_true]
  cases ht : t a with
  | ok r =>
    cases hp : p (mkResponse r) with
    | error e => cases rcO <;> simp [hp]
    | ok u => cases u; cases rcO <;> simp [hp]
  | error ex => cases rcO <;> simp

end Modular

namespace Modular

/-- Delay/attempt correspondence of the retry loop (no cancellation, no
throwing response filters): starting at attempt `a` with the loop
invariant `fuel = maxAttempts - attempt + 1`, the list of slept delays has
one entry per retry, and the entry before the `(k+1)`-th transport call
from here is `getDelay(a+k, statusCode of attempt a+k)`. -/
theorem executeLoop_delays_shape (rc : RetryConfig)
    (t : Nat → Except NetworkExceptionData TransportResult) (mA : Int) :
    ∀ (f a : Nat), ((a : Int) + f = mA + 1 ∨ f = 0) →
      (executeLoop (some rc) false (fun _ => false) t (fun _ => Except.ok ()) mA a f).delays
        = (List.range
            ((executeLoop (some rc) false (fun _ => false) t (fun _ => Except.ok ()) mA a f).calls
              - 1)).map
            (fun k => rc.getDelay (a + k) (statusAt t (a + k))) := by
  intro f
  induction f with
  | zero => intro a _; simp [executeLoop]
  | succ f ih =>
    intro a hinv
    have hinv2 : (a : Int) + (f + 1) = mA + 1 := by
      rcases hinv with h | h
      · exact_mod_cast h
      · exact absurd h (Nat.succ_ne_zero f)
    unfold executeLoop
    simp only [if_false, Bool.false_eq_true]
    cases ht : t a with
    | ok r =>
      by_cases hg :
          (!false && rc.shouldRetry r.statusCode r.wasTimeout && decide ((a : Int) < mA)) = true
      · -- retry branch
        have hlt : (a : Int) < mA := by
          have := hg
          simp only [Bool.not_false, Bool.true_and, Bool.and_eq_true, decide_eq_true_eq] at this
          exact this.2
        have hf1 : 1 ≤ f := by omega
        obtain ⟨f2, rfl⟩ : ∃ f2, f = f2 + 1 := ⟨f - 1, by omega⟩
        have hrest1 : 1 ≤ (executeLoop (some rc) false (fun _ => false) t
            (fun _ => Except.ok ()) mA (a + 1) (f2 + 1)).calls :=
          executeLoop_calls_pos _ _ _ _ _ _ _ _ rfl
        have hrestIH := ih (a + 1) (Or.inl (by push_cast; push_cast at hinv2; omega))
        simp only [hg, if_true]
        set rest := executeLoop (some rc) false (fun _ => false) t
          (fun _ => Except.ok ()) mA (a + 1) (f2 + 1) with hrestdef
        obtain ⟨n, hn⟩ : ∃ n, rest.calls = n + 1 := ⟨rest.calls - 1, by omega⟩
        simp only [hn] at hrestIH ⊢
        simp only [Nat.add_sub_cancel] at hrestIH ⊢
        rw [hrestIH]
        rw [show 1 + (n + 1) - 1 = n + 1 by omega]
        rw [List.range_succ_eq_map]
        simp only [List.map_cons, List.map_map]
        congr 1
        · simp [statusAt, ht]
        · apply List.map_congr_left
          intro k _
          simp only [Function.comp_apply]
          rw [show a + Nat.succ k = a + 1 + k by omega]
      · simp only [hg, if_false]
        simp [ht]
    | error ex =>
      by_cases hg : (!false && rc.shouldRetry 0 ex.isTimeout && decide ((a : Int) < mA)) = true
      · have hlt : (a : Int) < mA := by
          have := hg
          simp only [Bool.not_false, Bool.true_and, Bool.and_eq_true, decide_eq_true_eq] at this
          exact this.2
        have hf1 : 1 ≤ f := by omega
        obtain ⟨f2, rfl⟩ : ∃ f2, f = f2 + 1 := ⟨f - 1, by omega⟩
        have hrest1 : 1 ≤ (executeLoop (some rc) false (fun _ => false) t
            (fun _ => Except.ok ()) mA (a + 1) (f2 + 1)).calls :=
          executeLoop_calls_pos _ _ _ _ _ _ _ _ rfl
        have hrestIH := ih (a + 1) (Or.inl (by push_cast; push_cast at hinv2; omega))
        simp only [hg, if_true]
        set rest := executeLoop (some rc) false (fun _ => false) t
          (fun _ => Except.ok ()) mA (a + 1) (f2 + 1) with hrestdef
        obtain ⟨n, hn⟩ : ∃ n, rest.calls = n + 1 := ⟨rest.calls - 1, by omega⟩
        simp only [hn] at hrestIH ⊢
        simp only [Nat.add_sub_cancel] at hrestIH ⊢
        rw [hrestIH]
        rw [show 1 + (n + 1) - 1 = n + 1 by omega]
        rw [List.range_succ_eq_map]
        simp only [List.map_cons, List.map_map]
        congr 1
        · simp [statusAt, ht]
        · apply List.map_congr_left
          intro k _
          simp only [Function.comp_apply]
          rw [show a + Nat.succ k = a + 1 + k by omega]
      · simp only [hg, if_false]
        simp

end Modular


namespace Modular

/-- A set stop token at any reached attempt boundary makes the loop return
the cancellation error immediately: zero transport calls from that point,
no delay, no response. -/
theorem executeLoop_cancelled (rcO : Option RetryConfig) (dr : Bool) (c : Nat → Bool)
    (t : Nat → Except NetworkExceptionData TransportResult)
    (p : Response → Except ExecError Unit) (mA : Int) (a f : Nat) (hc : c a = true) :
    executeLoop rcO dr c t p mA a (f + 1)
      = ⟨0, [], Except.error (ExecError.runtimeError ("Request cancelled"))⟩ := by
  unfold executeLoop
  simp [hc]

/-- Claim C3: request execution performs exactly 1 attempt when no retry
config is set or retries are disabled; with an enabled retry config the
attempt count is bounded by `maxRetries()+1`; the initial try is never
preceded by a delay and the delay before the k-th retry (k starting at 1)
is `getDelay(k, statusCode of attempt k)`; and under
`ServerErrorRetryConfig(maxRetries=3, initialDelay=10ms, exponential)`
with responses 503, 503, 200 there are exactly 3 attempts, delays 10 ms
then 20 ms, and the returned `Response` has status 200. -/
theorem claim_C3 :
    (∀ (dr : Bool) (c : Nat → Bool) (t : Nat → Except NetworkExceptionData TransportResult)
        (p : Response → Except ExecError Unit), c 1 = false →
        (executeInternal none dr c t p).calls = 1 ∧ (executeInternal none dr c t p).delays = [])
      ∧ (∀ (rcO : Option RetryConfig) (c : Nat → Bool)
          (t : Nat → Except NetworkExceptionData TransportResult)
          (p : Response → Except ExecError Unit), c 1 = false →
          (executeInternal rcO true c t p).calls = 1
            ∧ (executeInternal rcO true c t p).delays = [])
      ∧ (∀ (rc : RetryConfig) (c : Nat → Bool)
          (t : Nat → Except NetworkExceptionData TransportResult)
          (p : Response → Except ExecError Unit),
          (executeInternal (some rc) false c t p).calls ≤ (rc.maxRetries + 1).toNat)
      ∧ (∀ (rc : RetryConfig) (t : Nat → Except NetworkExceptionData TransportResult),
          (executeInternal (some rc) false (fun _ => false) t (fun _ => Except.ok ())).delays
            = (List.range
                ((executeInternal (some rc) false (fun _ => false) t
                  (fun _ => Except.ok ())).calls - 1)).map
                (fun k => rc.getDelay (1 + k) (statusAt t (1 + k))))
      ∧ executeInternal (some (ServerErrorRetryConfig 3 10 16000)) false (fun _ => false)
          server503503200 (fun _ => Except.ok ())
          = ⟨3, [10, 20], Except.ok (mkResponse (plainResult 200))⟩ := by
  refine ⟨?_, ?_, ?_, ?_, by decide⟩
  · intro dr c t p hc
    cases dr <;> simp only [executeInternal] <;>
      exact executeLoop_single_none _ _ _ _ _ _ _ hc
  · intro rcO c t p hc
    simp only [executeInternal, if_true]
    exact executeLoop_single_disabled _ _ _ _ _ _ _ hc
  · intro rc c t p
    simp only [executeInternal]
    exact executeLoop_calls_le_fuel _ _ _ _ _ _ _ _
  · intro rc t
    simp only [executeInternal]
    exact executeLoop_delays_shape rc t _ _ _ (by omega)

end Modular


namespace Modular

/-- Claim C8: if the cancellation token has stop requested when an attempt
boundary is reached, execution fails immediately with the cancellation
error the source throws (`std::runtime_error("Request cancelled")`): no
transport call is made for that attempt and no `Response` is returned.
Stated for any reached attempt boundary of the loop, and for the start of
`executeInternal` with and without a retry config. -/
theorem claim_C8 :
    (∀ (rcO : Option RetryConfig) (dr : Bool) (c : Nat → Bool)
        (t : Nat → Except NetworkExceptionData TransportResult)
        (p : Response → Except ExecError Unit) (mA : Int) (a f : Nat),
        c a = true →
        executeLoop rcO dr c t p mA a (f + 1)
          = ⟨0, [], Except.error (ExecError.runtimeError ("Request cancelled"))⟩)
      ∧ (∀ (rc : RetryConfig) (dr : Bool) (c : Nat → Bool)
          (t : Nat → Except NetworkExceptionData TransportResult)
          (p : Response → Except ExecError Unit), 0 ≤ rc.maxRetries → c 1 = true →
          executeInternal (some rc) dr c t p
            = ⟨0, [], Except.error (ExecError.runtimeError ("Request cancelled"))⟩)
      ∧ (∀ (dr : Bool) (c : Nat → Bool)
          (t : Nat → Except NetworkExceptionData TransportResult)
          (p : Response → Except ExecError Unit), c 1 = true →
          executeInternal none dr c t p
            = ⟨0, [], Except.error (ExecError.runtimeError ("Request cancelled"))⟩) := by
  refine ⟨?_, ?_, ?_⟩
  · intro rcO dr c t p mA a f hc
    exact executeLoop_cancelled _ _ _ _ _ _ _ _ hc
  · intro rc dr c t p hrc hc
    simp only [executeInternal]
    cases dr with
    | true =>
      rw [if_pos rfl]
      exact executeLoop_cancelled _ _ _ _ _ _ _ 0 hc
    | false =>
      rw [if_neg Bool.false_ne_true]
      obtain ⟨k, hk⟩ : ∃ k, (rc.maxRetries + 1).toNat = k + 1 :=
        ⟨(rc.maxRetries + 1).toNat - 1, by omega⟩
      rw [hk]
      exact executeLoop_cancelled _ _ _ _ _ _ _ _ hc
  · intro dr c t p hc
    simp only [executeInternal]
    cases dr with
    | true =>
      rw [if_pos rfl]
      exact executeLoop_cancelled _ _ _ _ _ _ _ 0 hc
    | false =>
      rw [if_neg Bool.false_ne_true]
      exact executeLoop_cancelled _ _ _ _ _ _ _ 0 hc

/-- Claim C3 witness: the one-attempt case evaluated at a concrete
transport with the stop token never set. -/
theorem claim_C3_witness :
    (executeInternal none false (fun _ => false) server503503200
        (fun _ => Except.ok ())).calls = 1 :=
  (claim_C3.1 false (fun _ => false) server503503200 (fun _ => Except.ok ()) rfl).1

/-- Claim C8 witness: a concrete request whose stop token is set fails
with the cancellation error without calling the transport. -/
theorem claim_C8_witness :
    executeInternal none false (fun _ => true) server503503200 (fun _ => Except.ok ())
      = ⟨0, [], Except.error (ExecError.runtimeError ("Request cancelled"))⟩ :=
  claim_C8.2.2 false (fun _ => true) server503503200 (fun _ => Except.ok ()) rfl

/-- Claim C2 witness: with the pairwise-distinct priorities `[300,100,500]`
the response-phase order is exactly the reverse of the request-phase
order. -/
theorem claim_C2_witness :
    applyResponseFiltersOrder [⟨300, 0, 0⟩, ⟨100, 1, 1⟩, ⟨500, 2, 2⟩] [] []
      = (applyRequestFiltersOrder [⟨300, 0, 0⟩, ⟨100, 1, 1⟩, ⟨500, 2, 2⟩] [] []).reverse :=
  claim_C2.2.1 [⟨300, 0, 0⟩, ⟨100, 1, 1⟩, ⟨500, 2, 2⟩] [] [] (by decide)

end Modular

namespace Modular

/-- One integer-field step of `updateFromHeaders` preserves any state
projection that its target field does not feed, and any projection at all
when the header value is empty. -/
theorem updateStep_proj (proj : RateLimiterState → Int) (s : RateLimiterState) (v : String)
    (set : RateLimiterState → Int → RateLimiterState)
    (h : v = "" ∨ ∀ t n, proj (set t n) = proj t) :
    proj (RateLimiter.updateStep s v set).1 = proj s := by
  unfold RateLimiter.updateStep
  rcases h with h | h
  · simp [h]
  · split
    · rfl
    · split <;> simp [h]

/-- Frame property of `updateFromHeaders`: a state projection survives the
whole update provided that, for each of the six steps, either the step's
header is effectively absent or the step's field assignment cannot change
the projection. -/
theorem updateFromHeaders_proj (proj : RateLimiterState → Int) (now : Int)
    (s : RateLimiterState) (headers : List (String × String))
    (h1 : RateLimiter.getHeaderValue headers ("x-rl-daily-limit") = ""
      ∨ ∀ t n, proj { t with daily_limit := n } = proj t)
    (h2 : RateLimiter.getHeaderValue headers ("x-rl-daily-remaining") = ""
      ∨ ∀ t n, proj { t with daily_remaining := n } = proj t)
    (h3 : RateLimiter.getHeaderValue headers ("x-rl-daily-reset") = ""
      ∨ ∀ t x, proj { t with daily_reset := x } = proj t)
    (h4 : RateLimiter.getHeaderValue headers ("x-rl-hourly-limit") = ""
      ∨ ∀ t n, proj { t with hourly_limit := n } = proj t)
    (h5 : RateLimiter.getHeaderValue headers ("x-rl-hourly-remaining") = ""
      ∨ ∀ t n, proj { t with hourly_remaining := n } = proj t)
    (h6 : RateLimiter.getHeaderValue headers ("x-rl-hourly-reset") = ""
      ∨ ∀ t x, proj { t with hourly_reset := x } = proj t) :
    proj (RateLimiter.updateFromHeaders now s headers).1 = proj s := by
  unfold RateLimiter.updateFromHeaders
  split
  next s1 e heq =>
    have hp := updateStep_proj proj s _ _ h1
    rw [heq] at hp
    exact hp
  next s1 heq =>
    have p1 : proj s1 = proj s := by
      have hp := updateStep_proj proj s _ _ h1
      rw [heq] at hp
      exact hp
    split
    next s2 e heq2 =>
      have hp := updateStep_proj proj s1 _ _ h2
      rw [heq2] at hp
      exact hp.trans p1
    next s2 heq2 =>
      have p2 : proj s2 = proj s := by
        have hp := updateStep_proj proj s1 _ _ h2
        rw [heq2] at hp
        exact hp.trans p1
      generalize hs3 : (if RateLimiter.getHeaderValue headers ("x-rl-daily-reset") ≠ "" then
          { s2 with
              daily_reset :=
                RateLimiter.parseTimestamp now
                  (RateLimiter.getHeaderValue headers ("x-rl-daily-reset")) }
        else s2) = s3
      have p3 : proj s3 = proj s := by
        rw [← hs3]
        rcases h3 with h3 | h3
        · simp [h3, p2]
        · split
          · exact (h3 _ _).trans p2
          · exact p2
      split
      next s4 e heq4 =>
        have hp := updateStep_proj proj s3 _ _ h4
        rw [heq4] at hp
        exact hp.trans p3
      next s4 heq4 =>
        have p4 : proj s4 = proj s := by
          have hp := updateStep_proj proj s3 _ _ h4
          rw [heq4] at hp
          exact hp.trans p3
        split
        next s5 e heq5 =>
          have hp := updateStep_proj proj s4 _ _ h5
          rw [heq5] at hp
          exact hp.trans p4
        next s5 heq5 =>
          have p5 : proj s5 = proj s := by
            have hp := updateStep_proj proj s4 _ _ h5
            rw [heq5] at hp
            exact hp.trans p4
          rcases h6 with h6 | h6
          · simp [h6, p5]
          · show proj (if _ then _ else _) = proj s
            split
            · exact (h6 _ _).trans p5
            · exact p5

end Modular

namespace Modular

/-- When no header key matches the wanted key case-insensitively,
`getHeaderValue` returns the empty string. -/
theorem getHeaderValue_absent (headers : List (String × String)) (key : String)
    (h : ∀ kv ∈ headers, RateLimiter.lowerStr kv.1 ≠ RateLimiter.lowerStr key) :
    RateLimiter.getHeaderValue headers key = "" := by
  have hnone :
      headers.find? (fun kv => RateLimiter.lowerStr kv.1 = RateLimiter.lowerStr key) = none := by
    rw [List.find?_eq_none]
    intro kv hkv
    simpa using h kv hkv
  simp [RateLimiter.getHeaderValue, hnone]

/-- Claim C5: in every reachable state of the rate limiter,
`canMakeRequest()` returns true iff the daily remaining count is > 0 and
the hourly remaining count is > 0; in particular, after `updateFromHeaders`
sets daily-remaining to 5 and hourly-remaining to 0, `canMakeRequest()`
returns false despite the positive daily remainder. -/
theorem claim_C5 :
    (∀ s : RateLimiterState, RateLimiter.Reachable s →
        (RateLimiter.canMakeRequest s = true ↔
          0 < s.daily_remaining ∧ 0 < s.hourly_remaining))
      ∧ RateLimiter.canMakeRequest
          (RateLimiter.updateFromHeaders 0 (RateLimiter.init 0)
            [(("x-rl-daily-remaining"), ("5")), (("x-rl-hourly-remaining"), ("0")),
              (("x-rl-hourly-reset"), ("3600"))]).1 = false
      ∧ (RateLimiter.updateFromHeaders 0 (RateLimiter.init 0)
          [(("x-rl-daily-remaining"), ("5")), (("x-rl-hourly-remaining"), ("0")),
            (("x-rl-hourly-reset"), ("3600"))]).1.daily_remaining = 5 := by
  refine ⟨?_, by decide, by decide⟩
  intro s _
  simp [RateLimiter.canMakeRequest]

/-- Claim C5 witness: the invariant evaluated at the freshly constructed
limiter, a reachable state. -/
theorem claim_C5_witness :
    RateLimiter.canMakeRequest (RateLimiter.init 0) = true ↔
      0 < (RateLimiter.init 0).daily_remaining ∧ 0 < (RateLimiter.init 0).hourly_remaining :=
  claim_C5.1 (RateLimiter.init 0) (RateLimiter.Reachable.init 0)

/-- Claim C6: `updateFromHeaders` matches the six rate-limit header names
case-insensitively and updates each of the six state fields independently:
every field whose header is absent from the map (no key equal modulo ASCII
case) keeps exactly its prior value, whatever the other headers do; and a
mixed-case header map does update its fields. -/
theorem claim_C6 :
    (∀ (now : Int) (s : RateLimiterState) (headers : List (String × String)),
        ((∀ kv ∈ headers,
            RateLimiter.lowerStr kv.1 ≠ RateLimiter.lowerStr ("x-rl-daily-limit")) →
          (RateLimiter.updateFromHeaders now s headers).1.daily_limit = s.daily_limit)
        ∧ ((∀ kv ∈ headers,
            RateLimiter.lowerStr kv.1 ≠ RateLimiter.lowerStr ("x-rl-daily-remaining")) →
          (RateLimiter.updateFromHeaders now s headers).1.daily_remaining = s.daily_remaining)
        ∧ ((∀ kv ∈ headers,
            RateLimiter.lowerStr kv.1 ≠ RateLimiter.lowerStr ("x-rl-daily-reset")) →
          (RateLimiter.updateFromHeaders now s headers).1.daily_reset = s.daily_reset)
        ∧ ((∀ kv ∈ headers,
            RateLimiter.lowerStr kv.1 ≠ RateLimiter.lowerStr ("x-rl-hourly-limit")) →
          (RateLimiter.updateFromHeaders now s headers).1.hourly_limit = s.hourly_limit)
        ∧ ((∀ kv ∈ headers,
            RateLimiter.lowerStr kv.1 ≠ RateLimiter.lowerStr ("x-rl-hourly-remaining")) →
          (RateLimiter.updateFromHeaders now s headers).1.hourly_remaining = s.hourly_remaining)
        ∧ ((∀ kv ∈ headers,
            RateLimiter.lowerStr kv.1 ≠ RateLimiter.lowerStr ("x-rl-hourly-reset")) →
          (RateLimiter.updateFromHeaders now s headers).1.hourly_reset = s.hourly_reset))
      ∧ (RateLimiter.updateFromHeaders 0 (RateLimiter.init 0)
          [(("X-RL-Daily-Limit"), ("111")), (("x-RL-daily-REMAINING"), ("222"))]).1
          = { RateLimiter.init 0 with daily_limit := 111, daily_remaining := 222 } := by
  refine ⟨?_, by decide⟩
  intro now s headers
  refine ⟨fun h => ?_, fun h => ?_, fun h => ?_, fun h => ?_, fun h => ?_, fun h => ?_⟩
  · exact updateFromHeaders_proj (fun t => t.daily_limit) now s headers
      (Or.inl (getHeaderValue_absent _ _ h)) (Or.inr fun t n => rfl) (Or.inr fun t x => rfl)
      (Or.inr fun t n => rfl) (Or.inr fun t n => rfl) (Or.inr fun t x => rfl)
  · exact updateFromHeaders_proj (fun t => t.daily_remaining) now s headers
      (Or.inr fun t n => rfl) (Or.inl (getHeaderValue_absent _ _ h)) (Or.inr fun t x => rfl)
      (Or.inr fun t n => rfl) (Or.inr fun t n => rfl) (Or.inr fun t x => rfl)
  · exact updateFromHeaders_proj (fun t => t.daily_reset) now s headers
      (Or.inr fun t n => rfl) (Or.inr fun t n => rfl) (Or.inl (getHeaderValue_absent _ _ h))
      (Or.inr fun t n => rfl) (Or.inr fun t n => rfl) (Or.inr fun t x => rfl)
  · exact updateFromHeaders_proj (fun t => t.hourly_limit) now s headers
      (Or.inr fun t n => rfl) (Or.inr fun t n => rfl) (Or.inr fun t x => rfl)
      (Or.inl (getHeaderValue_absent _ _ h)) (Or.inr fun t n => rfl) (Or.inr fun t x => rfl)
  · exact updateFromHeaders_proj (fun t => t.hourly_remaining) now s headers
      (Or.inr fun t n => rfl) (Or.inr fun t n => rfl) (Or.inr fun t x => rfl)
      (Or.inr fun t n => rfl) (Or.inl (getHeaderValue_absent _ _ h)) (Or.inr fun t x => rfl)
  · exact updateFromHeaders_proj (fun t => t.hourly_reset) now s headers
      (Or.inr fun t n => rfl) (Or.inr fun t n => rfl) (Or.inr fun t x => rfl)
      (Or.inr fun t n => rfl) (Or.inr fun t n => rfl) (Or.inl (getHeaderValue_absent _ _ h))

/-- Claim C6 witness: with an empty header map the daily limit is
untouched. -/
theorem claim_C6_witness :
    (RateLimiter.updateFromHeaders 0 (RateLimiter.init 0) []).1.daily_limit
      = (RateLimiter.init 0).daily_limit :=
  (claim_C6.1 0 (RateLimiter.init 0) []).1 (by simp)

end Modular

namespace Modular

/-- Truncation to seconds is exact on whole-second time points. -/
theorem durationCastSec_mul_of_dvd (t : Int) (h : nsPerSec ∣ t) :
    RateLimiter.durationCastSec t * nsPerSec = t := by
  obtain ⟨k, rfl⟩ := h
  unfold RateLimiter.durationCastSec
  by_cases h0 : (0 : Int) ≤ nsPerSec * k
  · rw [if_pos h0, Int.mul_ediv_cancel_left _ (by norm_num [nsPerSec])]
    ring
  · rw [if_neg h0, show -(nsPerSec * k) = nsPerSec * (-k) by ring,
      Int.mul_ediv_cancel_left _ (by norm_num [nsPerSec])]
    ring

/-- Claim C7, amended. `saveState` then `loadState` into a fresh limiter
reproduces the four counters exactly; the two reset time points are
reproduced only up to truncation to whole Unix seconds (the file stores
epoch seconds), hence the status is identical precisely when both saved
reset times lie on whole-second boundaries — which holds for every state
produced by a header update or a load, but not for the constructor's
`now + 24h`/`now + 1h` defaults at sub-second current times. -/
theorem claim_C7 :
    ∀ s fresh : RateLimiterState,
      (roundTrip s fresh).daily_limit = s.daily_limit
        ∧ (roundTrip s fresh).daily_remaining = s.daily_remaining
        ∧ (roundTrip s fresh).hourly_limit = s.hourly_limit
        ∧ (roundTrip s fresh).hourly_remaining = s.hourly_remaining
        ∧ (roundTrip s fresh).daily_reset = RateLimiter.durationCastSec s.daily_reset * nsPerSec
        ∧ (roundTrip s fresh).hourly_reset
            = RateLimiter.durationCastSec s.hourly_reset * nsPerSec
        ∧ (nsPerSec ∣ s.daily_reset → nsPerSec ∣ s.hourly_reset → roundTrip s fresh = s) := by
  intro s fresh
  refine ⟨rfl, rfl, rfl, rfl, rfl, rfl, fun hd hh => ?_⟩
  cases s with
  | mk dl dr hl hr drs hrs =>
    simp only [roundTrip, RateLimiter.loadStateApply, RateLimiter.saveStateRecord, Option.getD,
      RateLimiterState.mk.injEq, true_and]
    exact ⟨durationCastSec_mul_of_dvd _ hd, durationCastSec_mul_of_dvd _ hh⟩

/-- Claim C7, counterexample. A limiter constructed at `now` = 0.5 s past
the epoch (a reachable state) has `daily_reset` = 86400.5 s in
nanoseconds; saving truncates it to 86400 s, so loading into a fresh
limiter yields a different `RateLimitStatus`, refuting the claim that the
round trip is identity for every state. -/
theorem claim_C7_counterexample :
    RateLimiter.Reachable (RateLimiter.init 500000000)
      ∧ roundTrip (RateLimiter.init 500000000) (RateLimiter.init 0)
          ≠ RateLimiter.init 500000000
      ∧ (roundTrip (RateLimiter.init 500000000) (RateLimiter.init 0)).daily_reset
          = 86400000000000
      ∧ (RateLimiter.init 500000000).daily_reset = 86400500000000 := by
  exact ⟨RateLimiter.Reachable.init 500000000, by decide, by decide, by decide⟩

/-- Claim C7 witness: for a state with whole-second reset times the round
trip is the identity. -/
theorem claim_C7_witness :
    roundTrip (RateLimiter.init 0) (RateLimiter.init 0) = RateLimiter.init 0 :=
  (claim_C7 (RateLimiter.init 0) (RateLimiter.init 0)).2.2.2.2.2.2
    ⟨86400, by decide⟩ ⟨3600, by decide⟩

end Modular

namespace Modular

/-- The empty string has no digits: `std::stoi` on it throws. -/
theorem stoi_empty : RateLimiter.stoi ("") = Except.error () := rfl

/-- An update step whose header value is present but not a parseable
integer throws `std::invalid_argument` and leaves the state unchanged. -/
theorem updateStep_of_bad (s : RateLimiterState) (v : String)
    (set : RateLimiterState → Int → RateLimiterState) (h : RateLimiter.headerIntBad v) :
    RateLimiter.updateStep s v set = (s, some ("std::invalid_argument: stoi")) := by
  unfold RateLimiter.updateStep
  rw [if_neg h.1, h.2]

/-- An update step whose header value is absent or a parseable integer
does not throw. -/
theorem updateStep_snd_of_ok (s : RateLimiterState) (v : String)
    (set : RateLimiterState → Int → RateLimiterState) (h : RateLimiter.headerIntOk v) :
    (RateLimiter.updateStep s v set).2 = none := by
  rcases h with h | ⟨n, hn⟩
  · simp [RateLimiter.updateStep, h]
  · by_cases hv : v = ""
    · simp [RateLimiter.updateStep, hv]
    · simp [RateLimiter.updateStep, hv, hn]

/-- An update step with a present, parseable header value assigns the
parsed integer through its field setter. -/
theorem updateStep_fst_of_parsed (s : RateLimiterState) (v : String)
    (set : RateLimiterState → Int → RateLimiterState) (n : Int)
    (hv : v ≠ "") (hn : RateLimiter.stoi v = Except.ok n) :
    (RateLimiter.updateStep s v set).1 = set s n := by
  simp [RateLimiter.updateStep, hv, hn]

/-- Every header value either lets its update step pass or makes
`std::stoi` throw. -/
theorem headerIntOk_or_bad (v : String) :
    RateLimiter.headerIntOk v ∨ RateLimiter.headerIntBad v := by
  by_cases hv : v = ""
  · exact Or.inl (Or.inl hv)
  · cases hn : RateLimiter.stoi v with
    | ok n => exact Or.inl (Or.inr ⟨n, hn⟩)
    | error e => cases e; exact Or.inr ⟨hv, hn⟩

/-- A header value cannot both pass its update step and make `std::stoi`
throw. -/
theorem headerIntOk_bad_absurd {v : String} (hok : RateLimiter.headerIntOk v)
    (hbad : RateLimiter.headerIntBad v) : False := by
  rcases hok with h | ⟨n, hn⟩
  · exact hbad.1 h
  · rw [hbad.2] at hn
    exact Except.noConfusion hn

/-- The daily-reset branch of `updateFromHeaders` preserves every state
projection that does not read `daily_reset`. -/
theorem dailyResetIte_proj (proj : RateLimiterState → Int) (now : Int) (v : String)
    (t : RateLimiterState) (h : ∀ u x, proj { u with daily_reset := x } = proj u) :
    proj (if v ≠ "" then { t with daily_reset := RateLimiter.parseTimestamp now v } else t)
      = proj t := by
  split
  · exact h t _
  · rfl

/-- When the daily-limit header is present but not parseable, the very
first `std::stoi` throws: `updateFromHeaders` escapes with the exception
and no field has been assigned. -/
theorem updateFromHeaders_eq_of_bad1 (now : Int) (s : RateLimiterState)
    (headers : List (String × String))
    (h : RateLimiter.headerIntBad (RateLimiter.getHeaderValue headers ("x-rl-daily-limit"))) :
    RateLimiter.updateFromHeaders now s headers = (s, some ("std::invalid_argument: stoi")) := by
  unfold RateLimiter.updateFromHeaders
  rw [updateStep_of_bad s _ _ h]

/-- When the daily-limit step passes but the daily-remaining header is
present and not parseable, `updateFromHeaders` escapes with the exception
after having applied exactly the daily-limit step. -/
theorem updateFromHeaders_eq_of_bad2 (now : Int) (s : RateLimiterState)
    (headers : List (String × String))
    (hok1 : RateLimiter.headerIntOk (RateLimiter.getHeaderValue headers ("x-rl-daily-limit")))
    (hbad2 :
      RateLimiter.headerIntBad (RateLimiter.getHeaderValue headers ("x-rl-daily-remaining"))) :
    RateLimiter.updateFromHeaders now s headers
      = ((RateLimiter.updateStep s (RateLimiter.getHeaderValue headers ("x-rl-daily-limit"))
            (fun t n => { t with daily_limit := n })).1,
          some ("std::invalid_argument: stoi")) := by
  have e1 : RateLimiter.updateStep s (RateLimiter.getHeaderValue headers ("x-rl-daily-limit"))
      (fun t n => { t with daily_limit := n })
      = ((RateLimiter.updateStep s (RateLimiter.getHeaderValue headers ("x-rl-daily-limit"))
          (fun t n => { t with daily_limit := n })).1, none) := by
    rw [← updateStep_snd_of_ok s _ _ hok1]
  unfold RateLimiter.updateFromHeaders
  rw [e1]
  dsimp only
  rw [updateStep_of_bad _ _ _ hbad2]

/-- When the two daily integer steps pass but the hourly-limit header is
present and not parseable, `updateFromHeaders` escapes with the exception
after having applied the daily-limit, daily-remaining and daily-reset
steps. -/
theorem updateFromHeaders_eq_of_bad4 (now : Int) (s : RateLimiterState)
    (headers : List (String × String))
    (hok1 : RateLimiter.headerIntOk (RateLimiter.getHeaderValue headers ("x-rl-daily-limit")))
    (hok2 :
      RateLimiter.headerIntOk (RateLimiter.getHeaderValue headers ("x-rl-daily-remaining")))
    (hbad4 :
      RateLimiter.headerIntBad (RateLimiter.getHeaderValue headers ("x-rl-hourly-limit"))) :
    RateLimiter.updateFromHeaders now s headers
      = (if RateLimiter.getHeaderValue headers ("x-rl-daily-reset") ≠ "" then
          { (RateLimiter.updateStep
              (RateLimiter.updateStep s
                (RateLimiter.getHeaderValue headers ("x-rl-daily-limit"))
                (fun t n => { t with daily_limit := n })).1
              (RateLimiter.getHeaderValue headers ("x-rl-daily-remaining"))
              (fun t n => { t with daily_remaining := n })).1 with
            daily_reset := RateLimiter.parseTimestamp now
              (RateLimiter.getHeaderValue headers ("x-rl-daily-reset")) }
        else
          (RateLimiter.updateStep
            (RateLimiter.updateStep s
              (RateLimiter.getHeaderValue headers ("x-rl-daily-limit"))
              (fun t n => { t with daily_limit := n })).1
            (RateLimiter.getHeaderValue headers ("x-rl-daily-remaining"))
            (fun t n => { t with daily_remaining := n })).1,
        some ("std::invalid_argument: stoi")) := by
  have e1 : RateLimiter.updateStep s (RateLimiter.getHeaderValue headers ("x-rl-daily-limit"))
      (fun t n => { t with daily_limit := n })
      = ((RateLimiter.updateStep s (RateLimiter.getHeaderValue headers ("x-rl-daily-limit"))
          (fun t n => { t with daily_limit := n })).1, none) := by
    rw [← updateStep_snd_of_ok s _ _ hok1]
  unfold RateLimiter.updateFromHeaders
  rw [e1]
  dsimp only
  have e2 : RateLimiter.updateStep
      (RateLimiter.updateStep s (RateLimiter.getHeaderValue headers ("x-rl-daily-limit"))
        (fun t n => { t with daily_limit := n })).1
      (RateLimiter.getHeaderValue headers ("x-rl-daily-remaining"))
      (fun t n => { t with daily_remaining := n })
      = ((RateLimiter.updateStep
          (RateLimiter.updateStep s (RateLimiter.getHeaderValue headers ("x-rl-daily-limit"))
            (fun t n => { t with daily_limit := n })).1
          (RateLimiter.getHeaderValue headers ("x-rl-daily-remaining"))
          (fun t n => { t with daily_remaining := n })).1, none) := by
    rw [← updateStep_snd_of_ok _ _ _ hok2]
  rw [e2]
  dsimp only
  rw [updateStep_of_bad _ _ _ hbad4]

end Modular

namespace Modular

/-- When the daily steps and the hourly-limit step pass but the
hourly-remaining header is present and not parseable, `updateFromHeaders`
escapes with the exception after having applied the first four steps. -/
theorem updateFromHeaders_eq_of_bad5 (now : Int) (s : RateLimiterState)
    (headers : List (String × String))
    (hok1 : RateLimiter.headerIntOk (RateLimiter.getHeaderValue headers ("x-rl-daily-limit")))
    (hok2 :
      RateLimiter.headerIntOk (RateLimiter.getHeaderValue headers ("x-rl-daily-remaining")))
    (hok4 :
      RateLimiter.headerIntOk (RateLimiter.getHeaderValue headers ("x-rl-hourly-limit")))
    (hbad5 :
      RateLimiter.headerIntBad
        (RateLimiter.getHeaderValue headers ("x-rl-hourly-remaining"))) :
    RateLimiter.updateFromHeaders now s headers
      = ((RateLimiter.updateStep
            (if RateLimiter.getHeaderValue headers ("x-rl-daily-reset") ≠ "" then
              { (RateLimiter.updateStep
                  (RateLimiter.updateStep s
                    (RateLimiter.getHeaderValue headers ("x-rl-daily-limit"))
                    (fun t n => { t with daily_limit := n })).1
                  (RateLimiter.getHeaderValue headers ("x-rl-daily-remaining"))
                  (fun t n => { t with daily_remaining := n })).1 with
                daily_reset := RateLimiter.parseTimestamp now
                  (RateLimiter.getHeaderValue headers ("x-rl-daily-reset")) }
            else
              (RateLimiter.updateStep
                (RateLimiter.updateStep s
                  (RateLimiter.getHeaderValue headers ("x-rl-daily-limit"))
                  (fun t n => { t with daily_limit := n })).1
                (RateLimiter.getHeaderValue headers ("x-rl-daily-remaining"))
                (fun t n => { t with daily_remaining := n })).1)
            (RateLimiter.getHeaderValue headers ("x-rl-hourly-limit"))
            (fun t n => { t with hourly_limit := n })).1,
          some ("std::invalid_argument: stoi")) := by
  have e1 : RateLimiter.updateStep s (RateLimiter.getHeaderValue headers ("x-rl-daily-limit"))
      (fun t n => { t with daily_limit := n })
      = ((RateLimiter.updateStep s (RateLimiter.getHeaderValue headers ("x-rl-daily-limit"))
          (fun t n => { t with daily_limit := n })).1, none) := by
    rw [← updateStep_snd_of_ok s _ _ hok1]
  unfold RateLimiter.updateFromHeaders
  rw [e1]
  dsimp only
  have e2 : RateLimiter.updateStep
      (RateLimiter.updateStep s (RateLimiter.getHeaderValue headers ("x-rl-daily-limit"))
        (fun t n => { t with daily_limit := n })).1
      (RateLimiter.getHeaderValue headers ("x-rl-daily-remaining"))
      (fun t n => { t with daily_remaining := n })
      = ((RateLimiter.updateStep
          (RateLimiter.updateStep s (RateLimiter.getHeaderValue headers ("x-rl-daily-limit"))
            (fun t n => { t with daily_limit := n })).1
          (RateLimiter.getHeaderValue headers ("x-rl-daily-remaining"))
          (fun t n => { t with daily_remaining := n })).1, none) := by
    rw [← updateStep_snd_of_ok _ _ _ hok2]
  rw [e2]
  dsimp only
  generalize (if RateLimiter.getHeaderValue headers ("x-rl-daily-reset") ≠ "" then
      { (RateLimiter.updateStep
          (RateLimiter.updateStep s
            (RateLimiter.getHeaderValue headers ("x-rl-daily-limit"))
            (fun t n => { t with daily_limit := n })).1
          (RateLimiter.getHeaderValue headers ("x-rl-daily-remaining"))
          (fun t n => { t with daily_remaining := n })).1 with
        daily_reset := RateLimiter.parseTimestamp now
          (RateLimiter.getHeaderValue headers ("x-rl-daily-reset")) }
    else
      (RateLimiter.updateStep
        (RateLimiter.updateStep s
          (RateLimiter.getHeaderValue headers ("x-rl-daily-limit"))
          (fun t n => { t with daily_limit := n })).1
        (RateLimiter.getHeaderValue headers ("x-rl-daily-remaining"))
        (fun t n => { t with daily_remaining := n })).1) = s3
  have e4 : RateLimiter.updateStep s3
      (RateLimiter.getHeaderValue headers ("x-rl-hourly-limit"))
      (fun t n => { t with hourly_limit := n })
      = ((RateLimiter.updateStep s3
          (RateLimiter.getHeaderValue headers ("x-rl-hourly-limit"))
          (fun t n => { t with hourly_limit := n })).1, none) := by
    rw [← updateStep_snd_of_ok s3 _ _ hok4]
  rw [e4]
  dsimp only
  rw [updateStep_of_bad _ _ _ hbad5]

end Modular

namespace Modular

set_option maxHeartbeats 1000000 in
/-- Claim C10: for every prior state and every header map in which a
limit or remaining header is present but its value is not a parseable
integer, the `std::stoi` exception propagates out of `updateFromHeaders`,
and every field parsed earlier in the fixed order (daily limit, daily
remaining, daily reset, hourly limit, hourly remaining, hourly reset)
keeps its newly assigned value while the failing field and all later
fields keep their prior values — the update is not atomic on error.
Stated for each possible position of the first failing conversion, plus a
concrete six-header run with a bad hourly-remaining value. -/
theorem claim_C10 :
    ∀ (now : Int) (s : RateLimiterState) (headers : List (String × String)),
      ((RateLimiter.headerIntBad (RateLimiter.getHeaderValue headers ("x-rl-daily-limit"))
          ∨ RateLimiter.headerIntBad
              (RateLimiter.getHeaderValue headers ("x-rl-daily-remaining"))
          ∨ RateLimiter.headerIntBad (RateLimiter.getHeaderValue headers ("x-rl-hourly-limit"))
          ∨ RateLimiter.headerIntBad
              (RateLimiter.getHeaderValue headers ("x-rl-hourly-remaining"))) →
        (RateLimiter.updateFromHeaders now s headers).2 = some ("std::invalid_argument: stoi"))
      ∧ (RateLimiter.headerIntBad (RateLimiter.getHeaderValue headers ("x-rl-daily-limit")) →
          RateLimiter.updateFromHeaders now s headers
            = (s, some ("std::invalid_argument: stoi")))
      ∧ (RateLimiter.headerIntBad
            (RateLimiter.getHeaderValue headers ("x-rl-daily-remaining")) →
          (RateLimiter.updateFromHeaders now s headers).2 = some ("std::invalid_argument: stoi")
          ∧ (∀ n, RateLimiter.stoi (RateLimiter.getHeaderValue headers ("x-rl-daily-limit"))
                = Except.ok n →
              (RateLimiter.updateFromHeaders now s headers).1.daily_limit = n)
          ∧ (RateLimiter.getHeaderValue headers ("x-rl-daily-limit") = "" →
              (RateLimiter.updateFromHeaders now s headers).1.daily_limit = s.daily_limit)
          ∧ (RateLimiter.updateFromHeaders now s headers).1.daily_remaining = s.daily_remaining
          ∧ (RateLimiter.updateFromHeaders now s headers).1.daily_reset = s.daily_reset
          ∧ (RateLimiter.updateFromHeaders now s headers).1.hourly_limit = s.hourly_limit
          ∧ (RateLimiter.updateFromHeaders now s headers).1.hourly_remaining
              = s.hourly_remaining
          ∧ (RateLimiter.updateFromHeaders now s headers).1.hourly_reset = s.hourly_reset)
      ∧ (RateLimiter.headerIntOk (RateLimiter.getHeaderValue headers ("x-rl-daily-limit")) →
          RateLimiter.headerIntOk (RateLimiter.getHeaderValue headers ("x-rl-daily-remaining")) →
          RateLimiter.headerIntBad (RateLimiter.getHeaderValue headers ("x-rl-hourly-limit")) →
          (RateLimiter.updateFromHeaders now s headers).2 = some ("std::invalid_argument: stoi")
          ∧ (∀ n, RateLimiter.stoi (RateLimiter.getHeaderValue headers ("x-rl-daily-limit"))
                = Except.ok n →
              (RateLimiter.updateFromHeaders now s headers).1.daily_limit = n)
          ∧ (RateLimiter.getHeaderValue headers ("x-rl-daily-limit") = "" →
              (RateLimiter.updateFromHeaders now s headers).1.daily_limit = s.daily_limit)
          ∧ (∀ n, RateLimiter.stoi (RateLimiter.getHeaderValue headers ("x-rl-daily-remaining"))
                = Except.ok n →
              (RateLimiter.updateFromHeaders now s headers).1.daily_remaining = n)
          ∧ (RateLimiter.getHeaderValue headers ("x-rl-daily-remaining") = "" →
              (RateLimiter.updateFromHeaders now s headers).1.daily_remaining
                = s.daily_remaining)
          ∧ (RateLimiter.getHeaderValue headers ("x-rl-daily-reset") ≠ "" →
              (RateLimiter.updateFromHeaders now s headers).1.daily_reset
                = RateLimiter.parseTimestamp now
                    (RateLimiter.getHeaderValue headers ("x-rl-daily-reset")))
          ∧ (RateLimiter.getHeaderValue headers ("x-rl-daily-reset") = "" →
              (RateLimiter.updateFromHeaders now s headers).1.daily_reset = s.daily_reset)
          ∧ (RateLimiter.updateFromHeaders now s headers).1.hourly_limit = s.hourly_limit
          ∧ (RateLimiter.updateFromHeaders now s headers).1.hourly_remaining
              = s.hourly_remaining
          ∧ (RateLimiter.updateFromHeaders now s headers).1.hourly_reset = s.hourly_reset)
      ∧ (RateLimiter.headerIntOk (RateLimiter.getHeaderValue headers ("x-rl-daily-limit")) →
          RateLimiter.headerIntOk (RateLimiter.getHeaderValue headers ("x-rl-daily-remaining")) →
          RateLimiter.headerIntOk (RateLimiter.getHeaderValue headers ("x-rl-hourly-limit")) →
          RateLimiter.headerIntBad
            (RateLimiter.getHeaderValue headers ("x-rl-hourly-remaining")) →
          (RateLimiter.updateFromHeaders now s headers).2 = some ("std::invalid_argument: stoi")
          ∧ (∀ n, RateLimiter.stoi (RateLimiter.getHeaderValue headers ("x-rl-daily-limit"))
                = Except.ok n →
              (RateLimiter.updateFromHeaders now s headers).1.daily_limit = n)
          ∧ (RateLimiter.getHeaderValue headers ("x-rl-daily-limit") = "" →
              (RateLimiter.updateFromHeaders now s headers).1.daily_limit = s.daily_limit)
          ∧ (∀ n, RateLimiter.stoi (RateLimiter.getHeaderValue headers ("x-rl-daily-remaining"))
                = Except.ok n →
              (RateLimiter.updateFromHeaders now s headers).1.daily_remaining = n)
          ∧ (RateLimiter.getHeaderValue headers ("x-rl-daily-remaining") = "" →
              (RateLimiter.updateFromHeaders now s headers).1.daily_remaining
                = s.daily_remaining)
          ∧ (RateLimiter.getHeaderValue headers ("x-rl-daily-reset") ≠ "" →
              (RateLimiter.updateFromHeaders now s headers).1.daily_reset
                = RateLimiter.parseTimestamp now
                    (RateLimiter.getHeaderValue headers ("x-rl-daily-reset")))
          ∧ (RateLimiter.getHeaderValue headers ("x-rl-daily-reset") = "" →
              (RateLimiter.updateFromHeaders now s headers).1.daily_reset = s.daily_reset)
          ∧ (∀ n, RateLimiter.stoi (RateLimiter.getHeaderValue headers ("x-rl-hourly-limit"))
                = Except.ok n →
              (RateLimiter.updateFromHeaders now s headers).1.hourly_limit = n)
          ∧ (RateLimiter.getHeaderValue headers ("x-rl-hourly-limit") = "" →
              (RateLimiter.updateFromHeaders now s headers).1.hourly_limit = s.hourly_limit)
          ∧ (RateLimiter.updateFromHeaders now s headers).1.hourly_remaining
              = s.hourly_remaining
          ∧ (RateLimiter.updateFromHeaders now s headers).1.hourly_reset = s.hourly_reset)
      ∧ RateLimiter.updateFromHeaders now s
          [(("x-rl-daily-limit"), ("9000")), (("x-rl-daily-remaining"), ("8000")),
            (("x-rl-daily-reset"), ("1700000000")), (("x-rl-hourly-limit"), ("400")),
            (("x-rl-hourly-remaining"), ("xyz")), (("x-rl-hourly-reset"), ("1700003600"))]
          = ({ s with
                daily_limit := 9000
                daily_remaining := 8000
                daily_reset := 1700000000 * nsPerSec
                hourly_limit := 400 },
              some ("std::invalid_argument: stoi")) := by
  intro now s headers
  refine ⟨?_, ?_, ?_, ?_, ?_, rfl⟩
  · intro hdisj
    rcases headerIntOk_or_bad (RateLimiter.getHeaderValue headers ("x-rl-daily-limit"))
      with hok1 | hbad1
    · rcases headerIntOk_or_bad (RateLimiter.getHeaderValue headers ("x-rl-daily-remaining"))
        with hok2 | hbad2
      · rcases headerIntOk_or_bad (RateLimiter.getHeaderValue headers ("x-rl-hourly-limit"))
          with hok4 | hbad4
        · rcases headerIntOk_or_bad
              (RateLimiter.getHeaderValue headers ("x-rl-hourly-remaining"))
            with hok5 | hbad5
          · rcases hdisj with h | h | h | h
            · exact absurd h (fun hb => headerIntOk_bad_absurd hok1 hb)
            · exact absurd h (fun hb => headerIntOk_bad_absurd hok2 hb)
            · exact absurd h (fun hb => headerIntOk_bad_absurd hok4 hb)
            · exact absurd h (fun hb => headerIntOk_bad_absurd hok5 hb)
          · rw [updateFromHeaders_eq_of_bad5 now s headers hok1 hok2 hok4 hbad5]
        · rw [updateFromHeaders_eq_of_bad4 now s headers hok1 hok2 hbad4]
      · rw [updateFromHeaders_eq_of_bad2 now s headers hok1 hbad2]
    · rw [updateFromHeaders_eq_of_bad1 now s headers hbad1]
  · exact fun hbad1 => updateFromHeaders_eq_of_bad1 now s headers hbad1
  · intro hbad2
    rcases headerIntOk_or_bad (RateLimiter.getHeaderValue headers ("x-rl-daily-limit"))
      with hok1 | hbad1
    · have hres := updateFromHeaders_eq_of_bad2 now s headers hok1 hbad2
      rw [hres]
      refine ⟨rfl, ?_, ?_, ?_, ?_, ?_, ?_, ?_⟩
      · intro n hn
        have hne1 : RateLimiter.getHeaderValue headers ("x-rl-daily-limit") ≠ "" := by
          intro h
          rw [h, stoi_empty] at hn
          exact Except.noConfusion hn
        rw [updateStep_fst_of_parsed s _ (fun t n => { t with daily_limit := n }) n hne1 hn]
      · intro h1
        exact updateStep_proj (fun t => t.daily_limit) s _
          (fun t n => { t with daily_limit := n }) (Or.inl h1)
      · exact updateStep_proj (fun t => t.daily_remaining) s _
          (fun t n => { t with daily_limit := n }) (Or.inr fun t m => rfl)
      · exact updateStep_proj (fun t => t.daily_reset) s _
          (fun t n => { t with daily_limit := n }) (Or.inr fun t m => rfl)
      · exact updateStep_proj (fun t => t.hourly_limit) s _
          (fun t n => { t with daily_limit := n }) (Or.inr fun t m => rfl)
      · exact updateStep_proj (fun t => t.hourly_remaining) s _
          (fun t n => { t with daily_limit := n }) (Or.inr fun t m => rfl)
      · exact updateStep_proj (fun t => t.hourly_reset) s _
          (fun t n => { t with daily_limit := n }) (Or.inr fun t m => rfl)
    · have hres := updateFromHeaders_eq_of_bad1 now s headers hbad1
      rw [hres]
      refine ⟨rfl, ?_, fun _ => rfl, rfl, rfl, rfl, rfl, rfl⟩
      intro n hn
      rw [hbad1.2] at hn
      exact Except.noConfusion hn
  · intro hok1 hok2 hbad4
    have hres := updateFromHeaders_eq_of_bad4 now s headers hok1 hok2 hbad4
    rw [hres]
    refine ⟨rfl, ?_, ?_, ?_, ?_, ?_, ?_, ?_, ?_, ?_⟩
    · intro n hn
      have hne1 : RateLimiter.getHeaderValue headers ("x-rl-daily-limit") ≠ "" := by
        intro h
        rw [h, stoi_empty] at hn
        exact Except.noConfusion hn
      refine (dailyResetIte_proj (fun t => t.daily_limit) now _ _ (fun u x => rfl)).trans ?_
      refine (updateStep_proj (fun t => t.daily_limit) _ _
        (fun t n => { t with daily_remaining := n }) (Or.inr fun t m => rfl)).trans ?_
      rw [updateStep_fst_of_parsed s _ (fun t n => { t with daily_limit := n }) n hne1 hn]
    · intro h1
      exact (dailyResetIte_proj (fun t => t.daily_limit) now _ _ (fun u x => rfl)).trans
        ((updateStep_proj (fun t => t.daily_limit) _ _
          (fun t n => { t with daily_remaining := n }) (Or.inr fun t m => rfl)).trans
          (updateStep_proj (fun t => t.daily_limit) s _
            (fun t n => { t with daily_limit := n }) (Or.inl h1)))
    · intro n hn
      have hne2 : RateLimiter.getHeaderValue headers ("x-rl-daily-remaining") ≠ "" := by
        intro h
        rw [h, stoi_empty] at hn
        exact Except.noConfusion hn
      refine (dailyResetIte_proj (fun t => t.daily_remaining) now _ _ (fun u x => rfl)).trans ?_
      rw [updateStep_fst_of_parsed _ _ (fun t n => { t with daily_remaining := n }) n hne2 hn]
    · intro h2
      exact (dailyResetIte_proj (fun t => t.daily_remaining) now _ _ (fun u x => rfl)).trans
        ((updateStep_proj (fun t => t.daily_remaining) _ _
          (fun t n => { t with daily_remaining := n }) (Or.inl h2)).trans
          (updateStep_proj (fun t => t.daily_remaining) s _
            (fun t n => { t with daily_limit := n }) (Or.inr fun t m => rfl)))
    · intro h3
      rw [if_pos h3]
    · intro h3
      rw [if_neg (fun hc => hc h3)]
      exact (updateStep_proj (fun t => t.daily_reset) _ _
        (fun t n => { t with daily_remaining := n }) (Or.inr fun t m => rfl)).trans
        (updateStep_proj (fun t => t.daily_reset) s _
          (fun t n => { t with daily_limit := n }) (Or.inr fun t m => rfl))
    · exact (dailyResetIte_proj (fun t => t.hourly_limit) now _ _ (fun u x => rfl)).trans
        ((updateStep_proj (fun t => t.hourly_limit) _ _
          (fun t n => { t with daily_remaining := n }) (Or.inr fun t m => rfl)).trans
          (updateStep_proj (fun t => t.hourly_limit) s _
            (fun t n => { t with daily_limit := n }) (Or.inr fun t m => rfl)))
    · exact (dailyResetIte_proj (fun t => t.hourly_remaining) now _ _ (fun u x => rfl)).trans
        ((updateStep_proj (fun t => t.hourly_remaining) _ _
          (fun t n => { t with daily_remaining := n }) (Or.inr fun t m => rfl)).trans
          (updateStep_proj (fun t => t.hourly_remaining) s _
            (fun t n => { t with daily_limit := n }) (Or.inr fun t m => rfl)))
    · exact (dailyResetIte_proj (fun t => t.hourly_reset) now _ _ (fun u x => rfl)).trans
        ((updateStep_proj (fun t => t.hourly_reset) _ _
          (fun t n => { t with daily_remaining := n }) (Or.inr fun t m => rfl)).trans
          (updateStep_proj (fun t => t.hourly_reset) s _
            (fun t n => { t with daily_limit := n }) (Or.inr fun t m => rfl)))
  · intro hok1 hok2 hok4 hbad5
    have hres := updateFromHeaders_eq_of_bad5 now s headers hok1 hok2 hok4 hbad5
    rw [hres]
    refine ⟨rfl, ?_, ?_, ?_, ?_, ?_, ?_, ?_, ?_, ?_, ?_⟩
    · intro n hn
      have hne1 : RateLimiter.getHeaderValue headers ("x-rl-daily-limit") ≠ "" := by
        intro h
        rw [h, stoi_empty] at hn
        exact Except.noConfusion hn
      refine (updateStep_proj (fun t => t.daily_limit) _ _
        (fun t n => { t with hourly_limit := n }) (Or.inr fun t m => rfl)).trans ?_
      refine (dailyResetIte_proj (fun t => t.daily_limit) now _ _ (fun u x => rfl)).trans ?_
      refine (updateStep_proj (fun t => t.daily_limit) _ _
        (fun t n => { t with daily_remaining := n }) (Or.inr fun t m => rfl)).trans ?_
      rw [updateStep_fst_of_parsed s _ (fun t n => { t with daily_limit := n }) n hne1 hn]
    · intro h1
      exact (updateStep_proj (fun t => t.daily_limit) _ _
        (fun t n => { t with hourly_limit := n }) (Or.inr fun t m => rfl)).trans
        ((dailyResetIte_proj (fun t => t.daily_limit) now _ _ (fun u x => rfl)).trans
          ((updateStep_proj (fun t => t.daily_limit) _ _
            (fun t n => { t with daily_remaining := n }) (Or.inr fun t m => rfl)).trans
            (updateStep_proj (fun t => t.daily_limit) s _
              (fun t n => { t with daily_limit := n }) (Or.inl h1))))
    · intro n hn
      have hne2 : RateLimiter.getHeaderValue headers ("x-rl-daily-remaining") ≠ "" := by
        intro h
        rw [h, stoi_empty] at hn
        exact Except.noConfusion hn
      refine (updateStep_proj (fun t => t.daily_remaining) _ _
        (fun t n => { t with hourly_limit := n }) (Or.inr fun t m => rfl)).trans ?_
      refine (dailyResetIte_proj (fun t => t.daily_remaining) now _ _ (fun u x => rfl)).trans ?_
      rw [updateStep_fst_of_parsed _ _ (fun t n => { t with daily_remaining := n }) n hne2 hn]
    · intro h2
      exact (updateStep_proj (fun t => t.daily_remaining) _ _
        (fun t n => { t with hourly_limit := n }) (Or.inr fun t m => rfl)).trans
        ((dailyResetIte_proj (fun t => t.daily_remaining) now _ _ (fun u x => rfl)).trans
          ((updateStep_proj (fun t => t.daily_remaining) _ _
            (fun t n => { t with daily_remaining := n }) (Or.inl h2)).trans
            (updateStep_proj (fun t => t.daily_remaining) s _
              (fun t n => { t with daily_limit := n }) (Or.inr fun t m => rfl))))
    · intro h3
      refine (updateStep_proj (fun t => t.daily_reset) _ _
        (fun t n => { t with hourly_limit := n }) (Or.inr fun t m => rfl)).trans ?_
      rw [if_pos h3]
    · intro h3
      refine (updateStep_proj (fun t => t.daily_reset) _ _
        (fun t n => { t with hourly_limit := n }) (Or.inr fun t m => rfl)).trans ?_
      rw [if_neg (fun hc => hc h3)]
      exact (updateStep_proj (fun t => t.daily_reset) _ _
        (fun t n => { t with daily_remaining := n }) (Or.inr fun t m => rfl)).trans
        (updateStep_proj (fun t => t.daily_reset) s _
          (fun t n => { t with daily_limit := n }) (Or.inr fun t m => rfl))
    · intro n hn
      have hne4 : RateLimiter.getHeaderValue headers ("x-rl-hourly-limit") ≠ "" := by
        intro h
        rw [h, stoi_empty] at hn
        exact Except.noConfusion hn
      rw [updateStep_fst_of_parsed _ _ (fun t n => { t with hourly_limit := n }) n hne4 hn]
    · intro h4
      refine (updateStep_proj (fun t => t.hourly_limit) _ _
        (fun t n => { t with hourly_limit := n }) (Or.inl h4)).trans ?_
      exact (dailyResetIte_proj (fun t => t.hourly_limit) now _ _ (fun u x => rfl)).trans
        ((updateStep_proj (fun t => t.hourly_limit) _ _
          (fun t n => { t with daily_remaining := n }) (Or.inr fun t m => rfl)).trans
          (updateStep_proj (fun t => t.hourly_limit) s _
            (fun t n => { t with daily_limit := n }) (Or.inr fun t m => rfl)))
    · exact (updateStep_proj (fun t => t.hourly_remaining) _ _
        (fun t n => { t with hourly_limit := n }) (Or.inr fun t m => rfl)).trans
        ((dailyResetIte_proj (fun t => t.hourly_remaining) now _ _ (fun u x => rfl)).trans
          ((updateStep_proj (fun t => t.hourly_remaining) _ _
            (fun t n => { t with daily_remaining := n }) (Or.inr fun t m => rfl)).trans
            (updateStep_proj (fun t => t.hourly_remaining) s _
              (fun t n => { t with daily_limit := n }) (Or.inr fun t m => rfl))))
    · exact (updateStep_proj (fun t => t.hourly_reset) _ _
        (fun t n => { t with hourly_limit := n }) (Or.inr fun t m => rfl)).trans
        ((dailyResetIte_proj (fun t => t.hourly_reset) now _ _ (fun u x => rfl)).trans
          ((updateStep_proj (fun t => t.hourly_reset) _ _
            (fun t n => { t with daily_remaining := n }) (Or.inr fun t m => rfl)).trans
            (updateStep_proj (fun t => t.hourly_reset) s _
              (fun t n => { t with daily_limit := n }) (Or.inr fun t m => rfl))))

end Modular

namespace Modular

/-- Claim C10 witness: a concrete map whose daily-remaining value is not
an integer escapes with the exception, the already-parsed daily limit
keeping its new value 100. -/
theorem claim_C10_witness :
    (RateLimiter.updateFromHeaders 0 (RateLimiter.init 0)
        [(("x-rl-daily-limit"), ("100")), (("x-rl-daily-remaining"), ("abc"))]).2
        = some ("std::invalid_argument: stoi")
      ∧ (RateLimiter.updateFromHeaders 0 (RateLimiter.init 0)
          [(("x-rl-daily-limit"), ("100")), (("x-rl-daily-remaining"), ("abc"))]).1.daily_limit
        = 100 := by
  refine ⟨(claim_C10 0 (RateLimiter.init 0)
    [(("x-rl-daily-limit"), ("100")), (("x-rl-daily-remaining"), ("abc"))]).1
      (Or.inr (Or.inl ⟨by decide, by decide⟩)), ?_⟩
  exact ((claim_C10 0 (RateLimiter.init 0)
    [(("x-rl-daily-limit"), ("100")), (("x-rl-daily-remaining"), ("abc"))]).2.2.1
      ⟨by decide, by decide⟩).2.1 100 (by decide)

end Modular
